import Mathlib

/-!
Shallow embedding of the event-to-state projection engine of the
`mys-social-indexer` repository.

The database is modeled as lists of rows, one list per table; each handler
of `src/blockchain/social_graph_handler.rs`, `src/blockchain/platform_handler.rs`,
`src/blockchain/events.rs` and `src/events/blocking_events.rs` is translated
into a pure state transformer over that database.  Timestamps are `Nat`
(seconds); each handler takes the wall-clock second `now` and the optional
blockchain `event_id` as explicit parameters.  JSON payloads are modeled by
an inductive `Json` type mirroring `serde_json::Value` (numbers as `Int`;
no floating point payload is inspected by any modeled operation).
-/

namespace MysIndexer

/-- JSON values, mirroring `serde_json::Value`.  Objects are association
lists; all objects built by the modeled code have distinct keys, matching
`serde_json::Map`. -/
inductive Json where
  | null : Json
  | bool (b : Bool) : Json
  | num (n : Int) : Json
  | str (s : String) : Json
  | arr (elems : List Json) : Json
  | obj (members : List (String × Json)) : Json
deriving Repr, BEq

/-- Lookup of a key in a JSON object association list (`serde_json::Map::get`). -/
def lookupKV : List (String × Json) → String → Option Json
  | [], _ => none
  | (k', v) :: rest, k => if k' == k then some v else lookupKV rest k

/-- Rust `Value::get(key)`: `Some` only on objects holding the key. -/
def Json.lookup : Json → String → Option Json
  | .obj kvs, k => lookupKV kvs k
  | _, _ => none

/-- Rust `Value::as_str`. -/
def Json.asStr : Json → Option String
  | .str s => some s
  | _ => none

/-- Rust `Value::as_bool`. -/
def Json.asBool : Json → Option Bool
  | .bool b => some b
  | _ => none

/-- Rust `Value::as_object`, as the underlying association list. -/
def Json.asObj : Json → Option (List (String × Json))
  | .obj kvs => some kvs
  | _ => none

/-- Rust `Value::is_string`. -/
def Json.isStr : Json → Bool
  | .str _ => true
  | _ => false

/-- Rust `Value::is_object`. -/
def Json.isObj : Json → Bool
  | .obj _ => true
  | _ => false

/-- Insert-or-replace of a key in a JSON object association list
(`serde_json::Map::insert`). -/
def insertKV : List (String × Json) → String → Json → List (String × Json)
  | [], k, v => [(k, v)]
  | (k', v') :: rest, k, v =>
    if k' == k then (k, v) :: rest else (k', v') :: insertKV rest k v

/-! ## Typed events (from `src/events/*.rs` and `src/models/*.rs`) -/

/-- `FollowEvent` of `src/events/social_graph_events.rs`. -/
structure FollowEvent where
  follower : String
  following : String
  timestamp : Option Nat
deriving Repr, DecidableEq

/-- `UnfollowEvent` of `src/events/social_graph_events.rs`. -/
structure UnfollowEvent where
  follower : String
  unfollowed : String
  timestamp : Option Nat
deriving Repr, DecidableEq

/-- `ProfileCreatedEvent` of `src/events/profile_events.rs`. -/
structure ProfileCreatedEvent where
  profile_id : String
  owner_address : String
  username : Option String
  display_name : String
  profile_photo : Option String
  cover_photo : Option String
  bio : Option String
  created_at : Nat
deriving Repr, DecidableEq

/-- `PlatformCreatedEvent` of `src/models/platform.rs` (`status` is the
numeric `PlatformStatus.status`). -/
structure PlatformCreatedEvent where
  platform_id : String
  name : String
  tagline : String
  description : Option String
  developer : String
  logo : Option String
  terms_of_service : String
  privacy_policy : String
  platforms : List String
  links : List String
  status : Nat
  release_date : String
deriving Repr, DecidableEq

/-- `PlatformApprovalChangedEvent` of `src/models/platform.rs`. -/
structure PlatformApprovalChangedEvent where
  platform_id : String
  is_approved : Bool
  approved_by : String
  changed_at : Nat
deriving Repr, DecidableEq

/-- `UserJoinedPlatformEvent` of `src/models/platform.rs`. -/
structure UserJoinedPlatformEvent where
  profile_id : String
  platform_id : String
  user : String
  timestamp : Nat
deriving Repr, DecidableEq

/-- `UserLeftPlatformEvent` of `src/models/platform.rs`. -/
structure UserLeftPlatformEvent where
  profile_id : String
  platform_id : String
  user : String
  timestamp : Nat
deriving Repr, DecidableEq

/-- `PlatformBlockedProfileEvent` of `src/models/blocking/platform_blocks.rs`. -/
structure PlatformBlockedProfileEvent where
  platform_id : String
  profile_id : String
  blocked_by : String
deriving Repr, DecidableEq

/-- `PlatformUnblockedProfileEvent` of `src/models/blocking/platform_blocks.rs`. -/
structure PlatformUnblockedProfileEvent where
  platform_id : String
  profile_id : String
  unblocked_by : String
deriving Repr, DecidableEq

/-- `UserBlockEvent` of `src/models/blocking/profile_blocks.rs`. -/
structure UserBlockEvent where
  blocker : String
  blocked : String
deriving Repr, DecidableEq

/-- `UserUnblockEvent` of `src/models/blocking/profile_blocks.rs`. -/
structure UserUnblockEvent where
  blocker : String
  unblocked : String
deriving Repr, DecidableEq

/-! ## Table rows

Each structure carries the columns that the modeled handlers read or
write.  Columns that every modeled write leaves at its SQL default and
that no modeled read inspects (the sensitive profile columns
`birthdate` … `github_username`, `block_list_address`, the serialized
`raw_event_data` / `event_data` blobs of the platform and social-graph
event logs, and the serial `id` columns) are omitted. -/

/-- Row of the `profiles` table. -/
structure ProfileRow where
  owner_address : String
  username : String
  display_name : Option String
  bio : Option String
  profile_photo : Option String
  website : Option String
  cover_photo : Option String
  profile_id : Option String
  followers_count : Int
  following_count : Int
  created_at : Nat
  updated_at : Nat
deriving Repr, DecidableEq

/-- Row of the `social_graph_relationships` table. -/
structure RelationshipRow where
  follower_address : String
  following_address : String
  created_at : Nat
deriving Repr, DecidableEq

/-- Row of the append-only `social_graph_events` log. -/
structure SocialGraphEventRow where
  event_type : String
  follower_address : String
  following_address : String
  created_at : Nat
  event_id : Option String
deriving Repr, DecidableEq

/-- Row of the `platforms` table. -/
structure PlatformRow where
  platform_id : String
  name : String
  tagline : String
  description : Option String
  logo : Option String
  developer_address : String
  terms_of_service : Option String
  privacy_policy : Option String
  platform_names : List String
  links : List String
  status : Int
  release_date : Option String
  shutdown_date : Option String
  is_approved : Bool
  approval_changed_at : Option Nat
  approved_by : Option String
  created_at : Nat
  updated_at : Nat
deriving Repr, DecidableEq

/-- Row of the append-only `platform_events` log. -/
structure PlatformEventRow where
  event_type : String
  platform_id : String
  event_id : Option String
  created_at : Nat
deriving Repr, DecidableEq

/-- Row of the `platform_memberships` table. -/
structure MembershipRow where
  platform_id : String
  profile_id : String
  joined_at : Nat
deriving Repr, DecidableEq

/-- Row of the `platform_moderators` table. -/
structure PlatformModeratorRow where
  platform_id : String
  moderator_address : String
  added_by : String
  created_at : Nat
deriving Repr, DecidableEq

/-- Row of the `platform_blocked_profiles` table. -/
structure PlatformBlockedRow where
  platform_id : String
  profile_id : String
  blocked_by : String
  created_at : Nat
deriving Repr, DecidableEq

/-- Row of the append-only `profile_events` log (`event_data` is the JSON
payload built by `NewProfileEvent`). -/
structure ProfileEventRow where
  event_type : String
  profile_id : String
  event_data : Json
  event_id : Option String
  created_at : Nat
  updated_at : Nat
deriving Repr, BEq

/-- Row of the `profiles_blocked` table (user-level blocks). -/
structure ProfilesBlockedRow where
  blocker_profile_id : String
  blocked_profile_id : String
  created_at : Nat
  is_blocked : Bool
  unblocked_at : Option Nat
deriving Repr, DecidableEq

/-- The projection store: one list of rows per table. -/
structure DB where
  profiles : List ProfileRow
  relationships : List RelationshipRow
  socialGraphEvents : List SocialGraphEventRow
  platforms : List PlatformRow
  platformEvents : List PlatformEventRow
  memberships : List MembershipRow
  platformModerators : List PlatformModeratorRow
  platformBlockedProfiles : List PlatformBlockedRow
  profileEvents : List ProfileEventRow
  profilesBlocked : List ProfilesBlockedRow
deriving Repr

/-- The empty database. -/
def DB.empty : DB :=
  { profiles := [], relationships := [], socialGraphEvents := [], platforms := []
  , platformEvents := [], memberships := [], platformModerators := []
  , platformBlockedProfiles := [], profileEvents := [], profilesBlocked := [] }

/-! ## Social-graph projector (`src/blockchain/social_graph_handler.rs`) -/

/-- `SELECT COUNT(*) FROM social_graph_relationships WHERE follower_address = addr`. -/
def countFollowing (rels : List RelationshipRow) (addr : String) : Int :=
  ((rels.filter fun r => r.follower_address == addr).length : Int)

/-- `SELECT COUNT(*) FROM social_graph_relationships WHERE following_address = addr`. -/
def countFollowers (rels : List RelationshipRow) (addr : String) : Int :=
  ((rels.filter fun r => r.following_address == addr).length : Int)

/-- `SELECT COUNT(*) FROM profiles WHERE profile_id = pid` compared with 0:
the existence check used throughout the handlers. -/
def profileExists (db : DB) (pid : String) : Bool :=
  db.profiles.any fun p => p.profile_id == some pid

/-- `SELECT owner_address FROM profiles WHERE profile_id = pid LIMIT 1`. -/
def ownerAddressOf (db : DB) (pid : String) : Option String :=
  (db.profiles.find? fun p => p.profile_id == some pid).map (·.owner_address)

/-- Existence check on the ordered relationship pair. -/
def relationshipExists (db : DB) (f g : String) : Bool :=
  db.relationships.any fun r => r.follower_address == f && r.following_address == g

/-- The two count-recomputation statements run after a relationship
mutation: `UPDATE profiles SET following_count = (SELECT COUNT(*) …)
WHERE profile_id = $1` for the follower, and the `followers_count`
analogue for the followed profile. -/
def recomputeCounts (f g : String) (rels : List RelationshipRow)
    (profiles : List ProfileRow) : List ProfileRow :=
  (profiles.map fun p =>
      if p.profile_id == some f
      then { p with following_count := countFollowing rels f } else p).map
    fun p =>
      if p.profile_id == some g
      then { p with followers_count := countFollowers rels g } else p

/-- The `social_graph_events` history row written first by
`process_follow_event`. -/
def followLogRow (now : Nat) (eid : Option String) (e : FollowEvent) :
    SocialGraphEventRow :=
  { event_type := "follow", follower_address := e.follower
  , following_address := e.following, created_at := now, event_id := eid }

/-- The `social_graph_events` history row written first by
`process_unfollow_event`. -/
def unfollowLogRow (now : Nat) (eid : Option String) (e : UnfollowEvent) :
    SocialGraphEventRow :=
  { event_type := "unfollow", follower_address := e.follower
  , following_address := e.unfollowed, created_at := now, event_id := eid }

/-- `process_follow_event` of `src/blockchain/social_graph_handler.rs`.
The audit-log row is inserted first, unconditionally; then the two
endpoint-existence checks, the duplicate-relationship check, the
owner-address lookups, the conflict-tolerant insert of the edge, and the
recomputation of both endpoints' counters by aggregate query.  All of it
runs inside one transaction; these functions model the committed result
of the error-free execution (it reaches `Ok` on every path).
`followAfterLog` is everything after the audit-log insert. -/
def followAfterLog (now : Nat) (e : FollowEvent) (db : DB) : DB :=
  if !profileExists db e.follower then db
  else if !profileExists db e.following then db
  else if relationshipExists db e.follower e.following then db
  else
    let rel : RelationshipRow :=
      { follower_address := e.follower, following_address := e.following
      , created_at := e.timestamp.getD now }
    match ownerAddressOf db rel.follower_address,
        ownerAddressOf db rel.following_address with
    | some _, some _ =>
      let rels' :=
        if relationshipExists db rel.follower_address rel.following_address
        then db.relationships else db.relationships ++ [rel]
      { db with relationships := rels'
              , profiles := recomputeCounts rel.follower_address
                  rel.following_address rels' db.profiles }
    | _, _ => db

/-- The whole of `process_follow_event`: the unconditional audit-log
insert followed by `followAfterLog`. -/
def processFollowEvent (now : Nat) (eid : Option String) (e : FollowEvent)
    (db : DB) : DB :=
  followAfterLog now e
    { db with socialGraphEvents := db.socialGraphEvents ++ [followLogRow now eid e] }

/-- `process_unfollow_event` of `src/blockchain/social_graph_handler.rs`:
log first, stop quietly when the edge is absent, skip the delete when an
owner lookup fails, otherwise delete the edge and recompute both
endpoints' counters by aggregate query. -/
def processUnfollowEvent (now : Nat) (eid : Option String) (e : UnfollowEvent)
    (db : DB) : DB :=
  let db : DB := { db with socialGraphEvents :=
                db.socialGraphEvents ++ [unfollowLogRow now eid e] }
  match db.relationships.find? (fun r =>
      r.follower_address == e.follower && r.following_address == e.unfollowed) with
  | none => db
  | some rel =>
    match ownerAddressOf db rel.follower_address,
        ownerAddressOf db rel.following_address with
    | some _, some _ =>
      let rels' := db.relationships.filter fun r =>
        !(r.follower_address == rel.follower_address &&
          r.following_address == rel.following_address)
      { db with relationships := rels'
              , profiles := recomputeCounts rel.follower_address
                  rel.following_address rels' db.profiles }
    | _, _ => db

/-! ## Platform projector (`src/blockchain/platform_handler.rs`)

Every handler of this file stores a `NewPlatformEvent` history row first
and runs inside one transaction; the functions below model the committed
result of the error-free execution. -/

/-- The `platform_events` history row written at the top of each platform
handler (`PlatformEventType::…​.to_str()`). -/
def platformLogRow (eventType : String) (platformId : String)
    (eid : Option String) (now : Nat) : PlatformEventRow :=
  { event_type := eventType, platform_id := platformId, event_id := eid
  , created_at := now }

/-- `SELECT COUNT(*) FROM platforms WHERE platform_id = pid` compared with 0. -/
def platformExists (db : DB) (pid : String) : Bool :=
  db.platforms.any fun pl => pl.platform_id == pid

/-- `SELECT is_approved FROM platforms WHERE platform_id = pid LIMIT 1`,
with `.unwrap_or(false)`: a missing platform counts as not approved. -/
def platformIsApproved (db : DB) (pid : String) : Bool :=
  match db.platforms.find? (fun pl => pl.platform_id == pid) with
  | some pl => pl.is_approved
  | none => false

/-- Existence check on the `platform_blocked_profiles` pair. -/
def profileIsBlockedByPlatform (db : DB) (pid prid : String) : Bool :=
  db.platformBlockedProfiles.any fun r =>
    r.platform_id == pid && r.profile_id == prid

/-- Existence check on the `platform_memberships` pair. -/
def membershipExists (db : DB) (pid prid : String) : Bool :=
  db.memberships.any fun m => m.platform_id == pid && m.profile_id == prid

/-- `process_platform_created_event`: log the event; update the existing
platform (leaving the approval columns untouched) or insert a fresh
unapproved platform together with its developer as first moderator
(conflict-tolerant insert). -/
def processPlatformCreatedEvent (now : Nat) (eid : Option String)
    (e : PlatformCreatedEvent) (db : DB) : DB :=
  let db : DB := { db with platformEvents := db.platformEvents ++
    [platformLogRow "PlatformCreatedEvent" e.platform_id eid now] }
  if platformExists db e.platform_id then
    { db with platforms := db.platforms.map fun pl =>
        if pl.platform_id == e.platform_id then
          { pl with name := e.name, tagline := e.tagline
                  , description := e.description, logo := e.logo
                  , terms_of_service := some e.terms_of_service
                  , privacy_policy := some e.privacy_policy
                  , platform_names := e.platforms, links := e.links
                  , status := (e.status : Int)
                  , release_date := some e.release_date
                  , updated_at := now }
        else pl }
  else
    let newPlatform : PlatformRow :=
      { platform_id := e.platform_id, name := e.name, tagline := e.tagline
      , description := e.description, logo := e.logo
      , developer_address := e.developer
      , terms_of_service := some e.terms_of_service
      , privacy_policy := some e.privacy_policy
      , platform_names := e.platforms, links := e.links
      , status := (e.status : Int), release_date := some e.release_date
      , shutdown_date := none, is_approved := false
      , approval_changed_at := none, approved_by := none
      , created_at := now, updated_at := now }
    let db : DB := { db with platforms := db.platforms ++ [newPlatform] }
    let mod : PlatformModeratorRow :=
      { platform_id := e.platform_id, moderator_address := e.developer
      , added_by := e.developer, created_at := now }
    { db with platformModerators :=
        if db.platformModerators.any (fun m =>
            m.platform_id == mod.platform_id &&
            m.moderator_address == mod.moderator_address)
        then db.platformModerators else db.platformModerators ++ [mod] }

/-- `process_platform_approval_changed_event`: log the event; when the
platform exists, set `is_approved`, `approval_changed_at`, `approved_by`
and `updated_at` from the event (nothing else). -/
def processPlatformApprovalChangedEvent (now : Nat) (eid : Option String)
    (e : PlatformApprovalChangedEvent) (db : DB) : DB :=
  let db : DB := { db with platformEvents := db.platformEvents ++
    [platformLogRow "PlatformApprovalChangedEvent" e.platform_id eid now] }
  if platformExists db e.platform_id then
    { db with platforms := db.platforms.map fun pl =>
        if pl.platform_id == e.platform_id then
          { pl with is_approved := e.is_approved
                  , approval_changed_at := some e.changed_at
                  , approved_by := some e.approved_by
                  , updated_at := e.changed_at }
        else pl }
  else db

/-- The `profile_events` row built by `NewProfileEvent::from_platform_joined`. -/
def platformJoinedProfileRow (now : Nat) (eid : Option String)
    (profileId platformId : String) (ts : Nat) : ProfileEventRow :=
  { event_type := "PlatformJoinedEvent", profile_id := profileId
  , event_data := .obj [("profile_id", .str profileId)
                       , ("platform_id", .str platformId)
                       , ("timestamp", .num (ts : Int))]
  , event_id := eid, created_at := ts, updated_at := now }

/-- `process_user_joined_platform_event`: log the event unconditionally;
then check, in order, that the platform is approved (a missing platform
reads as unapproved) and that the profile is not blocked by the
platform; on either failure return success with no membership write; on
success insert the membership only if absent and, in that case, also
append a `PlatformJoined` entry to the profile event-log. -/
def processUserJoinedPlatformEvent (now : Nat) (eid : Option String)
    (e : UserJoinedPlatformEvent) (db : DB) : DB :=
  let db : DB := { db with platformEvents := db.platformEvents ++
    [platformLogRow "UserJoinedPlatformEvent" e.platform_id eid now] }
  if !platformIsApproved db e.platform_id then db
  else if profileIsBlockedByPlatform db e.platform_id e.profile_id then db
  else if membershipExists db e.platform_id e.profile_id then db
  else
    { db with
        memberships := db.memberships ++
          [{ platform_id := e.platform_id, profile_id := e.profile_id
           , joined_at := e.timestamp }]
      , profileEvents := db.profileEvents ++
          [platformJoinedProfileRow now eid e.profile_id e.platform_id e.timestamp] }

/-- The `profile_events` row built by `NewProfileEvent::from_platform_left`. -/
def platformLeftProfileRow (now : Nat) (eid : Option String)
    (profileId platformId : String) (ts : Nat) : ProfileEventRow :=
  { event_type := "PlatformLeftEvent", profile_id := profileId
  , event_data := .obj [("profile_id", .str profileId)
                       , ("platform_id", .str platformId)
                       , ("timestamp", .num (ts : Int))]
  , event_id := eid, created_at := ts, updated_at := now }

/-- `process_user_left_platform_event`: log the event; when a membership
exists, delete it and append a `PlatformLeft` profile event-log entry. -/
def processUserLeftPlatformEvent (now : Nat) (eid : Option String)
    (e : UserLeftPlatformEvent) (db : DB) : DB :=
  let db : DB := { db with platformEvents := db.platformEvents ++
    [platformLogRow "UserLeftPlatformEvent" e.platform_id eid now] }
  if membershipExists db e.platform_id e.profile_id then
    { db with
        memberships := db.memberships.filter fun m =>
          !(m.platform_id == e.platform_id && m.profile_id == e.profile_id)
      , profileEvents := db.profileEvents ++
          [platformLeftProfileRow now eid e.profile_id e.platform_id e.timestamp] }
  else db

/-- `process_profile_blocked_event` (platform handler): log the event;
delete any existing `platform_blocked_profiles` row for the pair (to
refresh its timestamps) and insert a fresh one. -/
def processProfileBlockedEventP (now : Nat) (eid : Option String)
    (e : PlatformBlockedProfileEvent) (db : DB) : DB :=
  let db : DB := { db with platformEvents := db.platformEvents ++
    [platformLogRow "PlatformBlockedProfileEvent" e.platform_id eid now] }
  let db : DB :=
    match db.platformBlockedProfiles.find? (fun r =>
        r.platform_id == e.platform_id && r.profile_id == e.profile_id) with
    | some _ =>
      let remaining := db.platformBlockedProfiles.filter fun r =>
        !(r.platform_id == e.platform_id && r.profile_id == e.profile_id)
      { db with platformBlockedProfiles := remaining }
    | none => db
  { db with platformBlockedProfiles := db.platformBlockedProfiles ++
      [{ platform_id := e.platform_id, profile_id := e.profile_id
       , blocked_by := e.blocked_by, created_at := now }] }

/-- `process_profile_unblocked_event` (platform handler): log the event;
hard-delete the matching `platform_blocked_profiles` row — zero deleted
rows is logged as a warning, not an error. -/
def processProfileUnblockedEventP (now : Nat) (eid : Option String)
    (e : PlatformUnblockedProfileEvent) (db : DB) : DB :=
  let db : DB := { db with platformEvents := db.platformEvents ++
    [platformLogRow "PlatformUnblockedProfileEvent" e.platform_id eid now] }
  let remaining := db.platformBlockedProfiles.filter fun r =>
    !(r.platform_id == e.platform_id && r.profile_id == e.profile_id)
  { db with platformBlockedProfiles := remaining }

/-! ## Profile projector (`src/blockchain/events.rs`) -/

/-- `ProfileCreatedEvent::into_model` of `src/events/profile_events.rs`:
the `NewProfile` row, with counters initialized to zero and a
placeholder username generated from the owner address when absent. -/
def newProfileOf (e : ProfileCreatedEvent) : ProfileRow :=
  { owner_address := e.owner_address
  , username := e.username.getD ("user_" ++ e.owner_address.take 8)
  , display_name := some e.display_name, bio := e.bio
  , profile_photo := e.profile_photo, website := none
  , cover_photo := e.cover_photo, profile_id := some e.profile_id
  , followers_count := 0, following_count := 0
  , created_at := e.created_at, updated_at := e.created_at }

/-- `process_profile_created` of `src/blockchain/events.rs`: a single
upsert into `profiles` keyed on the unique `username` column — on
conflict the listed columns (including `profile_id`) are overwritten and
the counter columns are left untouched. -/
def processProfileCreated (e : ProfileCreatedEvent) (db : DB) : DB :=
  let np := newProfileOf e
  if db.profiles.any (fun p => p.username == np.username) then
    { db with profiles := db.profiles.map fun p =>
        if p.username == np.username then
          { p with owner_address := np.owner_address
                 , display_name := np.display_name, bio := np.bio
                 , profile_photo := np.profile_photo, website := np.website
                 , updated_at := np.updated_at, cover_photo := np.cover_photo
                 , profile_id := np.profile_id }
        else p }
  else { db with profiles := db.profiles ++ [np] }

/-! ## Blocking projector (`src/events/blocking_events.rs`)

These functions are invoked by the profile event listener on a bare
pooled connection: unlike the blockchain handlers above, their
statements do **not** run inside a transaction.  The `failLogInsert`
parameter of the user-level functions injects a failure of the trailing
`profile_events` insert, which the source catches and logs without
propagating. -/

/-- The `profile_events` row built by `NewProfileEvent::from_block_added`
(`is_platform_block` is `false` for user-level blocks). -/
def blockAddedProfileRow (now : Nat) (eid : Option String)
    (blocker blocked : String) : ProfileEventRow :=
  { event_type := "BlockAddedEvent", profile_id := blocker
  , event_data := .obj [("blocker_profile_id", .str blocker)
                       , ("blocked_profile_id", .str blocked)
                       , ("timestamp", .num (now : Int))
                       , ("is_platform_block", .bool false)]
  , event_id := eid, created_at := now, updated_at := now }

/-- The `profile_events` row built by `NewProfileEvent::from_block_removed`. -/
def blockRemovedProfileRow (now : Nat) (eid : Option String)
    (blocker blocked : String) : ProfileEventRow :=
  { event_type := "BlockRemovedEvent", profile_id := blocker
  , event_data := .obj [("blocker_profile_id", .str blocker)
                       , ("blocked_profile_id", .str blocked)
                       , ("timestamp", .num (now : Int))
                       , ("is_platform_block", .bool false)]
  , event_id := eid, created_at := now, updated_at := now }

/-- `process_profile_block_event` on an already-extracted `UserBlockEvent`:
skip when an id is empty; refresh the existing `profiles_blocked` row
(`is_blocked := true`, clear `unblocked_at`) when present, otherwise
insert a fresh row and append a `BlockAdded` profile event-log entry —
the two statements run without a transaction, and a failure of the log
insert (`failLogInsert`) is caught, leaving the call successful. -/
def processProfileBlockEventF (failLogInsert : Bool) (now : Nat)
    (e : UserBlockEvent) (db : DB) : DB :=
  if e.blocker == "" || e.blocked == "" then db
  else
    match db.profilesBlocked.find? (fun r =>
        r.blocker_profile_id == e.blocker && r.blocked_profile_id == e.blocked) with
    | some _ =>
      { db with profilesBlocked := db.profilesBlocked.map fun r =>
          if r.blocker_profile_id == e.blocker && r.blocked_profile_id == e.blocked
          then { r with is_blocked := true, unblocked_at := none } else r }
    | none =>
      let db : DB := { db with profilesBlocked := db.profilesBlocked ++
        [{ blocker_profile_id := e.blocker, blocked_profile_id := e.blocked
         , created_at := now, is_blocked := true, unblocked_at := none }] }
      if failLogInsert then db
      else { db with profileEvents := db.profileEvents ++
              [blockAddedProfileRow now none e.blocker e.blocked] }

/-- The error-free execution of `process_profile_block_event`. -/
def processProfileBlockEvent (now : Nat) (e : UserBlockEvent) (db : DB) : DB :=
  processProfileBlockEventF false now e db

/-- `process_profile_unblock_event` on an already-extracted
`UserUnblockEvent`: skip when an id is empty; soft-delete every matching
`profiles_blocked` row (`is_blocked := false`, `unblocked_at := now`) —
updating zero rows is not an error — then append a `BlockRemoved`
profile event-log entry (also without a transaction; a failed log insert
is caught). -/
def processProfileUnblockEventF (failLogInsert : Bool) (now : Nat)
    (e : UserUnblockEvent) (db : DB) : DB :=
  if e.blocker == "" || e.unblocked == "" then db
  else
    let db : DB := { db with profilesBlocked := db.profilesBlocked.map fun r =>
      if r.blocker_profile_id == e.blocker && r.blocked_profile_id == e.unblocked
      then { r with is_blocked := false, unblocked_at := some now } else r }
    if failLogInsert then db
    else { db with profileEvents := db.profileEvents ++
            [blockRemovedProfileRow now none e.blocker e.unblocked] }

/-- The error-free execution of `process_profile_unblock_event`. -/
def processProfileUnblockEvent (now : Nat) (e : UserUnblockEvent) (db : DB) : DB :=
  processProfileUnblockEventF false now e db

/-- The `profile_events` row built by `process_platform_block_event`
(`NewProfileEvent::from_blockchain_event` with the `is_platform_block`
marker and the platform id in the payload). -/
def platformBlockProfileRow (now : Nat) (e : PlatformBlockedProfileEvent) :
    ProfileEventRow :=
  { event_type := "BlockAddedEvent", profile_id := e.profile_id
  , event_data := .obj [("platform_id", .str e.platform_id)
                       , ("blocked_by", .str e.blocked_by)
                       , ("timestamp", .num (now : Int))
                       , ("is_platform_block", .bool true)]
  , event_id := none, created_at := now, updated_at := now }

/-- `process_platform_block_event` of `src/events/blocking_events.rs` on an
already-extracted event: when all three ids are present, the only write
is one `profile_events` row — no relational block table is touched. -/
def processPlatformBlockLogEvent (now : Nat) (e : PlatformBlockedProfileEvent)
    (db : DB) : DB :=
  if e.platform_id == "" || e.profile_id == "" || e.blocked_by == "" then db
  else { db with profileEvents := db.profileEvents ++ [platformBlockProfileRow now e] }

/-- The `profile_events` row built by `process_platform_unblock_event`. -/
def platformUnblockProfileRow (now : Nat) (e : PlatformUnblockedProfileEvent) :
    ProfileEventRow :=
  { event_type := "BlockRemovedEvent", profile_id := e.profile_id
  , event_data := .obj [("platform_id", .str e.platform_id)
                       , ("unblocked_by", .str e.unblocked_by)
                       , ("timestamp", .num (now : Int))
                       , ("is_platform_block", .bool true)]
  , event_id := none, created_at := now, updated_at := now }

/-- `process_platform_unblock_event` of `src/events/blocking_events.rs`:
when the platform and profile ids are present, the only write is one
`profile_events` row. -/
def processPlatformUnblockLogEvent (now : Nat) (e : PlatformUnblockedProfileEvent)
    (db : DB) : DB :=
  if e.platform_id == "" || e.profile_id == "" then db
  else { db with profileEvents := db.profileEvents ++ [platformUnblockProfileRow now e] }

/-! ## Event sequences

A typed event together with the wall-clock second and optional chain
event id under which its handler ran. -/

/-- One projected event, dispatched to its live handler. -/
inductive Ev where
  | profileCreated (e : ProfileCreatedEvent)
  | follow (e : FollowEvent)
  | unfollow (e : UnfollowEvent)
  | platformCreated (e : PlatformCreatedEvent)
  | approvalChanged (e : PlatformApprovalChangedEvent)
  | userJoined (e : UserJoinedPlatformEvent)
  | userLeft (e : UserLeftPlatformEvent)
  | platformBlocked (e : PlatformBlockedProfileEvent)
  | platformUnblocked (e : PlatformUnblockedProfileEvent)
  | userBlock (e : UserBlockEvent)
  | userUnblock (e : UserUnblockEvent)
  | platformBlockLog (e : PlatformBlockedProfileEvent)
  | platformUnblockLog (e : PlatformUnblockedProfileEvent)
deriving Repr

/-- Dispatch of one event to the handler that the listeners invoke for it. -/
def applyEv (now : Nat) (eid : Option String) (ev : Ev) (db : DB) : DB :=
  match ev with
  | .profileCreated e => processProfileCreated e db
  | .follow e => processFollowEvent now eid e db
  | .unfollow e => processUnfollowEvent now eid e db
  | .platformCreated e => processPlatformCreatedEvent now eid e db
  | .approvalChanged e => processPlatformApprovalChangedEvent now eid e db
  | .userJoined e => processUserJoinedPlatformEvent now eid e db
  | .userLeft e => processUserLeftPlatformEvent now eid e db
  | .platformBlocked e => processProfileBlockedEventP now eid e db
  | .platformUnblocked e => processProfileUnblockedEventP now eid e db
  | .userBlock e => processProfileBlockEvent now e db
  | .userUnblock e => processProfileUnblockEvent now e db
  | .platformBlockLog e => processPlatformBlockLogEvent now e db
  | .platformUnblockLog e => processPlatformUnblockLogEvent now e db

/-- An event with its processing time and chain event id. -/
abbrev TimedEv : Type := Nat × Option String × Ev

/-- Project a sequence of events, in order. -/
def applyEvents (evs : List TimedEv) (db : DB) : DB :=
  evs.foldl (fun acc tev => applyEv tev.1 tev.2.1 tev.2.2 acc) db

/-! ## Transactional execution with failure injection

`build_transaction().run(..)` commits the body's effects only when every
statement succeeds; any statement error rolls the database back and
surfaces as the handler's error.  `runTx` models that contract; the
`fails` oracle of `followTxBody` makes statement `i` of
`process_follow_event` fail (0 = audit-log insert, 1 = the
duplicate-relationship count query, 2 = the relationship insert, 3/4 =
the two counter updates; the existence and owner queries swallow their
errors via `unwrap_or` / `if let Ok`). -/

/-- Commit-or-rollback semantics of a database transaction: the observable
state is the body's result on success and the unchanged input on error. -/
def runTx (body : DB → Option DB) (db : DB) : DB × Bool :=
  match body db with
  | some db' => (db', true)
  | none => (db, false)

/-- The statements of `process_follow_event` after the audit-log insert,
with failure injection. -/
def followTxBodyAfterLog (fails : Nat → Bool) (now : Nat)
    (e : FollowEvent) (db : DB) : Option DB :=
  if !profileExists db e.follower then some db
  else if !profileExists db e.following then some db
  else if fails 1 then none
  else if relationshipExists db e.follower e.following then some db
  else
    let rel : RelationshipRow :=
      { follower_address := e.follower, following_address := e.following
      , created_at := e.timestamp.getD now }
    match ownerAddressOf db rel.follower_address,
        ownerAddressOf db rel.following_address with
    | some _, some _ =>
      if fails 2 then none else
      let rels' :=
        if relationshipExists db rel.follower_address rel.following_address
        then db.relationships else db.relationships ++ [rel]
      let db : DB := { db with relationships := rels' }
      if fails 3 then none else
      let db : DB := { db with profiles := db.profiles.map fun p =>
        if p.profile_id == some rel.follower_address
        then { p with following_count := countFollowing rels' rel.follower_address }
        else p }
      if fails 4 then none else
      some { db with profiles := db.profiles.map fun p =>
        if p.profile_id == some rel.following_address
        then { p with followers_count := countFollowers rels' rel.following_address }
        else p }
    | _, _ => some db

/-- The transaction body of `process_follow_event` with failure injection
(statement 0 is the audit-log insert). -/
def followTxBody (fails : Nat → Bool) (now : Nat) (eid : Option String)
    (e : FollowEvent) (db : DB) : Option DB :=
  if fails 0 then none
  else followTxBodyAfterLog fails now e
    { db with socialGraphEvents := db.socialGraphEvents ++ [followLogRow now eid e] }

/-- `process_follow_event` as a transaction with failure injection: the
pair is the observable database and whether the handler returned `Ok`. -/
def processFollowEventTx (fails : Nat → Bool) (now : Nat) (eid : Option String)
    (e : FollowEvent) (db : DB) : DB × Bool :=
  runTx (followTxBody fails now eid e) db

/-! ## Event decoder (`parse_event` of `src/events/mod.rs`)

The decoder is modeled at the two target types the claims exercise:
`ProfileCreatedEvent` (a profile event type, for which `parse_event`
runs a manual field-extraction pre-pass) and `FollowEvent` (a
non-profile type, for which only the generic chain runs).  Serde's
positional-sequence encoding of structs is not modeled: every payload
the modeled call sites feed to `parse_event` is a JSON object. -/

/-- Rust `str::contains` on string patterns. -/
def containsSub (s pat : String) : Bool := (s.splitOn pat).length != 1

mutual

/-- Compact rendering mirroring `serde_json::to_string` (the escaping of
control characters inside strings is not modeled; no payload inspected
by a theorem reaches the stringify fallbacks). -/
def Json.render : Json → String
  | .null => "null"
  | .bool true => "true"
  | .bool false => "false"
  | .num n => toString n
  | .str s => "\"" ++ s ++ "\""
  | .arr xs => "[" ++ renderElems xs ++ "]"
  | .obj kvs => "\x7b" ++ renderMembers kvs ++ "\x7d"

/-- Comma-separated rendering of array elements. -/
def renderElems : List Json → String
  | [] => ""
  | [x] => Json.render x
  | x :: y :: rest => Json.render x ++ "," ++ renderElems (y :: rest)

/-- Comma-separated rendering of object members. -/
def renderMembers : List (String × Json) → String
  | [] => ""
  | [(k, v)] => "\"" ++ k ++ "\":" ++ Json.render v
  | (k, v) :: m :: rest =>
    "\"" ++ k ++ "\":" ++ Json.render v ++ "," ++ renderMembers (m :: rest)

end

/-- Any value successfully looked up in a JSON object is structurally
smaller than the object's member list. -/
theorem lookupKV_sizeOf {kvs : List (String × Json)} {k : String} {v : Json}
    (h : lookupKV kvs k = some v) : sizeOf v < sizeOf kvs := by
  induction kvs with
  | nil => simp [lookupKV] at h
  | cons hd tl ih =>
    obtain ⟨k', v'⟩ := hd
    rw [lookupKV] at h
    split at h
    · cases h
      simp only [List.cons.sizeOf_spec, Prod.mk.sizeOf_spec]
      omega
    · have := ih h
      simp only [List.cons.sizeOf_spec]
      omega

/-- The `extract_object_value` helper of `parse_event`: unwrap Move-style
wrapped values — a `url` sub-field, a `string` sub-field, the head of a
`vec` wrapper (possibly recursively) — falling back to the stringified
object. -/
def extractObjectValue (o : List (String × Json)) : Option Json :=
  match lookupKV o "url" with
  | some url => some url
  | none =>
    match lookupKV o "string" with
    | some s => some s
    | none =>
      match hv : lookupKV o "vec" with
      | some (.arr (.obj inner :: _)) =>
        (match lookupKV inner "string" with
         | some s => some s
         | none => extractObjectValue inner)
      | some (.arr (.str s :: _)) => some (.str s)
      | _ => some (.str (Json.render (.obj o)))
termination_by sizeOf o
decreasing_by
  have h1 := lookupKV_sizeOf hv
  simp only [Json.arr.sizeOf_spec, Json.obj.sizeOf_spec, List.cons.sizeOf_spec] at h1
  omega

/-- The scan of the `id.dynamic_fields` array for a `bio` entry. -/
def searchDynamicBio : List Json → Option Json
  | [] => none
  | f :: rest =>
    match (f.lookup "name").bind Json.asStr with
    | some nm =>
      if nm == "bio" || containsSub nm "bio" then
        match f.lookup "value" with
        | some v => some v
        | none => searchDynamicBio rest
      else searchDynamicBio rest
    | none => searchDynamicBio rest

/-- The `extract_field` closure of `parse_event`: copy the source field
into the extracted map under the target name, unwrapping objects and
arrays through `extract_object_value` and stringifying as a last
resort; a missing `bio` is additionally searched in `id.dynamic_fields`
when a `display_name` is present. -/
def extractField (fields : List (String × Json))
    (extracted : List (String × Json)) (fieldName targetName : String) :
    List (String × Json) :=
  match lookupKV fields fieldName with
  | some v =>
    match v with
    | .str _ => insertKV extracted targetName v
    | .obj o =>
      (match extractObjectValue o with
       | some ex => insertKV extracted targetName ex
       | none => insertKV extracted targetName (.str (Json.render v)))
    | .bool _ => insertKV extracted targetName v
    | .num _ => insertKV extracted targetName v
    | .arr (first :: _) =>
      (match first with
       | .str _ => insertKV extracted targetName first
       | .obj o =>
         (match extractObjectValue o with
          | some ex => insertKV extracted targetName ex
          | none => insertKV extracted targetName (.str (Json.render v)))
       | _ => insertKV extracted targetName (.str (Json.render v)))
    | .arr [] => insertKV extracted targetName (.str (Json.render v))
    | .null => insertKV extracted targetName v
  | none =>
    if fieldName == "bio" && (lookupKV fields "display_name").isSome then
      match (lookupKV fields "id").bind (fun idv => idv.lookup "dynamic_fields") with
      | some (.arr dfs) =>
        (match searchDynamicBio dfs with
         | some v => insertKV extracted targetName v
         | none => extracted)
      | _ => extracted
    else extracted

/-- The ordered `field_mappings` table of `parse_event`. -/
def profileFieldMappings : List (String × String) :=
  [("id", "profile_id"), ("profile_id", "profile_id")
  , ("owner", "owner_address"), ("owner_address", "owner_address")
  , ("display_name", "display_name")
  , ("bio", "bio")
  , ("profile_picture", "profile_photo"), ("profile_photo", "profile_photo")
  , ("cover_photo", "cover_photo"), ("cover_url", "cover_photo")
  , ("has_profile_picture", "has_profile_picture")
  , ("has_cover_photo", "has_cover_photo")
  , ("created_at", "created_at"), ("updated_at", "updated_at")
  , ("registered_at", "registered_at"), ("expires_at", "expires_at")
  , ("username", "username"), ("old_username", "old_username")
  , ("new_username", "new_username")]

/-- Scan for a profile-photo-ish field when `has_profile_picture` is set
but no photo was extracted. -/
def searchProfilePhoto : List (String × Json) → Option Json
  | [] => none
  | (k, v) :: rest =>
    if (containsSub k "profile" && containsSub k "pic") ||
        containsSub k "photo" || containsSub k "avatar" then
      match v with
      | .obj o =>
        (match extractObjectValue o with
         | some ex => some ex
         | none => searchProfilePhoto rest)
      | .str _ => some v
      | _ => searchProfilePhoto rest
    else searchProfilePhoto rest

/-- Scan for a cover-photo-ish field. -/
def searchCoverPhoto : List (String × Json) → Option Json
  | [] => none
  | (k, v) :: rest =>
    if containsSub k "cover" then
      match v with
      | .obj o =>
        (match extractObjectValue o with
         | some ex => some ex
         | none => searchCoverPhoto rest)
      | .str _ => some v
      | _ => searchCoverPhoto rest
    else searchCoverPhoto rest

/-- Scan for a bio-ish field. -/
def searchBioField : List (String × Json) → Option Json
  | [] => none
  | (k, v) :: rest =>
    if k == "bio" || containsSub k "bio" || containsSub k "description" then
      match v with
      | .obj o =>
        (match extractObjectValue o with
         | some ex => some ex
         | none => searchBioField rest)
      | .str _ => some v
      | _ => searchBioField rest
    else searchBioField rest

/-- Special handling for `has_profile_picture` set without an extracted
`profile_photo`. -/
def applyHasProfilePicture (fields extracted : List (String × Json)) :
    List (String × Json) :=
  match lookupKV extracted "has_profile_picture" with
  | some hpp =>
    if (hpp.asBool.getD false) && (lookupKV extracted "profile_photo").isNone then
      match searchProfilePhoto fields with
      | some v => insertKV extracted "profile_photo" v
      | none => extracted
    else extracted
  | none => extracted

/-- Special handling for `has_cover_photo` set without an extracted
`cover_photo`. -/
def applyHasCoverPhoto (fields extracted : List (String × Json)) :
    List (String × Json) :=
  match lookupKV extracted "has_cover_photo" with
  | some hc =>
    if (hc.asBool.getD false) && (lookupKV extracted "cover_photo").isNone then
      match searchCoverPhoto fields with
      | some v => insertKV extracted "cover_photo" v
      | none => extracted
    else extracted
  | none => extracted

/-- Late bio search when a `display_name` was extracted but no `bio`. -/
def applyBioSearch (fields extracted : List (String × Json)) :
    List (String × Json) :=
  if (lookupKV extracted "bio").isNone &&
      (lookupKV extracted "display_name").isSome then
    match searchBioField fields with
    | some v => insertKV extracted "bio" v
    | none => extracted
  else extracted

/-- Username fallback of the non-username-event branch of the pre-pass. -/
def applyUsernameFallback (fields extracted : List (String × Json)) :
    List (String × Json) :=
  if (lookupKV extracted "username").isNone then
    match lookupKV fields "username" with
    | some u => insertKV extracted "username" u
    | none => extracted
  else extracted

/-- The `fields` container search of the pre-pass: a top-level `fields`
object, else a `content.fields` object. -/
def fieldsContainer (kvs : List (String × Json)) :
    Option (List (String × Json)) :=
  match lookupKV kvs "fields" with
  | some (.obj fo) => some fo
  | some _ => none
  | none =>
    match lookupKV kvs "content" with
    | some (.obj co) =>
      (match lookupKV co "fields" with
       | some f => f.asObj
       | none => none)
    | _ => none

/-! Serde-derive deserialization, modeled field by field: each map key is
matched against a field's name and aliases; a field hit twice is a
duplicate-field error, a value of the wrong shape a type error, unknown
keys are ignored. -/

/-- All values whose key belongs to one field's name-and-alias set. -/
def fieldCandidates (kvs : List (String × Json)) (names : List String) :
    List Json :=
  (kvs.filter fun kv => names.contains kv.1).map (·.2)

/-- A `String` field with `#[serde(default)]`. -/
def deserStrD (kvs : List (String × Json)) (names : List String) :
    Option String :=
  match fieldCandidates kvs names with
  | [] => some ""
  | [v] => v.asStr
  | _ => none

/-- A required `String` field. -/
def deserStrReq (kvs : List (String × Json)) (names : List String) :
    Option String :=
  match fieldCandidates kvs names with
  | [v] => v.asStr
  | _ => none

/-- An `Option<String>` field with `#[serde(default)]`. -/
def deserOptStr (kvs : List (String × Json)) (names : List String) :
    Option (Option String) :=
  match fieldCandidates kvs names with
  | [] => some none
  | [.null] => some none
  | [.str s] => some (some s)
  | _ => none

/-- A `u64` field read through `deserialize_number_from_string` with a
default: a JSON number or a numeric string is accepted. -/
def deserNatStringOrNum (kvs : List (String × Json)) (names : List String)
    (dflt : Nat) : Option Nat :=
  match fieldCandidates kvs names with
  | [] => some dflt
  | [.num n] => if n < 0 then none else some n.toNat
  | [.str s] => s.toNat?
  | _ => none

/-- An `Option<u64>` field with `#[serde(default)]` (plain serde, no
string coercion). -/
def deserOptNat (kvs : List (String × Json)) (names : List String) :
    Option (Option Nat) :=
  match fieldCandidates kvs names with
  | [] => some none
  | [.null] => some none
  | [.num n] => if n < 0 then none else some (some n.toNat)
  | _ => none

/-- Direct structural deserialization of `ProfileCreatedEvent`
(`serde_json::from_value`), with the declared renames, aliases and
defaults; the missing-`created_at` default `default_timestamp()` is the
explicit `now` parameter. -/
def deserProfileCreated (now : Nat) (j : Json) : Option ProfileCreatedEvent :=
  match j with
  | .obj kvs => do
    let pid ← deserStrD kvs ["profile_id", "id"]
    let owner ← deserStrD kvs ["owner_address", "owner"]
    let username ← deserOptStr kvs ["username"]
    let dname ← deserStrD kvs ["display_name"]
    let pphoto ← deserOptStr kvs ["profile_photo", "profile_picture", "avatar_url"]
    let cphoto ← deserOptStr kvs ["cover_photo", "cover_url"]
    let bioField ← deserOptStr kvs ["bio"]
    let cat ← deserNatStringOrNum kvs ["created_at"] now
    pure { profile_id := pid, owner_address := owner, username := username
         , display_name := dname, profile_photo := pphoto
         , cover_photo := cphoto, bio := bioField, created_at := cat }
  | _ => none

/-- Direct structural deserialization of `FollowEvent`: `follower` and
`following` are required strings, `timestamp` an optional number. -/
def deserFollow (j : Json) : Option FollowEvent :=
  match j with
  | .obj kvs => do
    let follower ← deserStrReq kvs ["follower"]
    let following ← deserStrReq kvs ["following"]
    let ts ← deserOptNat kvs ["timestamp"]
    pure { follower := follower, following := following, timestamp := ts }
  | _ => none

/-- The container-unwrapping step of `parse_event`: `fields`, else
`content.fields` (else `content` itself), else `value`, `data`,
`parsed_json`, else the whole payload. -/
def unwrapContainer (j : Json) : Json :=
  match j with
  | .obj kvs =>
    (match lookupKV kvs "fields" with
     | some f => f
     | none =>
       match lookupKV kvs "content" with
       | some c =>
         (match c with
          | .obj co =>
            (match lookupKV co "fields" with
             | some f => f
             | none => c)
          | _ => c)
       | none =>
         match lookupKV kvs "value" with
         | some v => v
         | none =>
           match lookupKV kvs "data" with
           | some d => d
           | none =>
             match lookupKV kvs "parsed_json" with
             | some p => p
             | none => j)
  | _ => j

/-- The manual-extraction pre-pass of `parse_event` for the profile event
type `ProfileCreatedEvent` (for which `is_profile_event` holds and the
`UsernameRegisteredEvent` branch does not): find the `fields` container,
run the field-mapping extraction and its special cases, and parse the
resulting custom object — its success short-circuits the whole decoder. -/
def profilePrePassPCE (now : Nat) (j : Json) : Option ProfileCreatedEvent :=
  match j with
  | .obj kvs =>
    (match fieldsContainer kvs with
     | some fields =>
       let extracted := profileFieldMappings.foldl
         (fun acc m => extractField fields acc m.1 m.2) []
       let extracted := applyHasProfilePicture fields extracted
       let extracted := applyHasCoverPhoto fields extracted
       let extracted := applyBioSearch fields extracted
       let extracted := applyUsernameFallback fields extracted
       deserProfileCreated now (.obj extracted)
     | none => none)
  | _ => none

/-- `parse_event::<ProfileCreatedEvent>`: the pre-pass runs first; only
when it does not produce a value is direct deserialization attempted,
and only on its failure the unwrapped container. -/
def parseEventProfileCreated (now : Nat) (j : Json) : Option ProfileCreatedEvent :=
  match profilePrePassPCE now j with
  | some e => some e
  | none =>
    match deserProfileCreated now j with
    | some r => some r
    | none => deserProfileCreated now (unwrapContainer j)

/-- `parse_event::<FollowEvent>`: a non-profile target type, so the chain
is direct deserialization first, then the unwrapped container. -/
def parseEventFollow (j : Json) : Option FollowEvent :=
  match deserFollow j with
  | some r => some r
  | none => deserFollow (unwrapContainer j)


/-! ## Theorems -/

/-- The failure-free post-log statements commit exactly `followAfterLog`. -/
theorem followTxBodyAfterLog_noFail (now : Nat) (e : FollowEvent) (s : DB) :
    followTxBodyAfterLog (fun _ => false) now e s
      = some (followAfterLog now e s) := by
  unfold followTxBodyAfterLog followAfterLog
  simp only [Bool.false_eq_true, if_false]
  split
  · rfl
  · split
    · rfl
    · split
      · rfl
      · split <;> rfl

/-- The failure-free transaction body commits exactly the state computed
by `processFollowEvent`. -/
theorem followTxBody_noFail (now : Nat) (eid : Option String)
    (e : FollowEvent) (db : DB) :
    followTxBody (fun _ => false) now eid e db
      = some (processFollowEvent now eid e db) := by
  unfold followTxBody processFollowEvent
  simp only [Bool.false_eq_true, if_false]
  exact followTxBodyAfterLog_noFail now e _

/-- C9: for every Follow event, a row is appended to the social-graph
event-log unconditionally and before any other effect; when either
endpoint profile does not exist, processing stops with the event logged
but nothing else changed, and the handler still returns success. -/
theorem c9_follow_log_first (now : Nat) (eid : Option String)
    (e : FollowEvent) (db : DB) :
    (processFollowEvent now eid e db).socialGraphEvents
      = db.socialGraphEvents ++ [followLogRow now eid e]
    ∧ (profileExists db e.follower = false ∨ profileExists db e.following = false →
        processFollowEvent now eid e db
          = { db with socialGraphEvents :=
                db.socialGraphEvents ++ [followLogRow now eid e] })
    ∧ (processFollowEventTx (fun _ => false) now eid e db).2 = true := by
  refine ⟨?_, ?_, ?_⟩
  · unfold processFollowEvent followAfterLog
    dsimp only
    split
    · rfl
    · split
      · rfl
      · split
        · rfl
        · split <;> rfl
  · intro h
    unfold processFollowEvent followAfterLog
    have hf : profileExists { db with socialGraphEvents :=
        db.socialGraphEvents ++ [followLogRow now eid e] } e.follower
        = profileExists db e.follower := rfl
    have hg : profileExists { db with socialGraphEvents :=
        db.socialGraphEvents ++ [followLogRow now eid e] } e.following
        = profileExists db e.following := rfl
    rcases h with h | h <;> simp [hf, hg, h]
  · rw [processFollowEventTx, runTx, followTxBody_noFail]

/-- C2: every UserJoinedPlatform event is first appended to the platform
event-log; the membership write is gated on (a) the platform existing
and being approved, then (b) the profile not being blocked by the
platform — on either failure the handler silently skips the membership
and still succeeds; on success the membership insert is idempotent and a
fresh membership also appends a PlatformJoined entry to the profile
event-log. -/
theorem c2_user_joined_gated (now : Nat) (eid : Option String)
    (e : UserJoinedPlatformEvent) (db : DB) :
    (processUserJoinedPlatformEvent now eid e db).platformEvents
      = db.platformEvents ++
          [platformLogRow "UserJoinedPlatformEvent" e.platform_id eid now]
    ∧ (platformIsApproved db e.platform_id = false →
        processUserJoinedPlatformEvent now eid e db
          = { db with platformEvents := db.platformEvents ++
                [platformLogRow "UserJoinedPlatformEvent" e.platform_id eid now] })
    ∧ (platformIsApproved db e.platform_id = true →
       profileIsBlockedByPlatform db e.platform_id e.profile_id = true →
        processUserJoinedPlatformEvent now eid e db
          = { db with platformEvents := db.platformEvents ++
                [platformLogRow "UserJoinedPlatformEvent" e.platform_id eid now] })
    ∧ (platformIsApproved db e.platform_id = true →
       profileIsBlockedByPlatform db e.platform_id e.profile_id = false →
       membershipExists db e.platform_id e.profile_id = true →
        processUserJoinedPlatformEvent now eid e db
          = { db with platformEvents := db.platformEvents ++
                [platformLogRow "UserJoinedPlatformEvent" e.platform_id eid now] })
    ∧ (platformIsApproved db e.platform_id = true →
       profileIsBlockedByPlatform db e.platform_id e.profile_id = false →
       membershipExists db e.platform_id e.profile_id = false →
        processUserJoinedPlatformEvent now eid e db
          = { db with
                platformEvents := db.platformEvents ++
                  [platformLogRow "UserJoinedPlatformEvent" e.platform_id eid now]
              , memberships := db.memberships ++
                  [{ platform_id := e.platform_id, profile_id := e.profile_id
                   , joined_at := e.timestamp }]
              , profileEvents := db.profileEvents ++
                  [platformJoinedProfileRow now eid e.profile_id e.platform_id
                     e.timestamp] }) := by
  have ha : platformIsApproved { db with platformEvents := db.platformEvents ++
      [platformLogRow "UserJoinedPlatformEvent" e.platform_id eid now] } e.platform_id
      = platformIsApproved db e.platform_id := rfl
  have hb : profileIsBlockedByPlatform { db with platformEvents := db.platformEvents ++
      [platformLogRow "UserJoinedPlatformEvent" e.platform_id eid now] } e.platform_id
      e.profile_id = profileIsBlockedByPlatform db e.platform_id e.profile_id := rfl
  have hm : membershipExists { db with platformEvents := db.platformEvents ++
      [platformLogRow "UserJoinedPlatformEvent" e.platform_id eid now] } e.platform_id
      e.profile_id = membershipExists db e.platform_id e.profile_id := rfl
  refine ⟨?_, ?_, ?_, ?_, ?_⟩
  · unfold processUserJoinedPlatformEvent
    dsimp only
    split
    · rfl
    · split
      · rfl
      · split <;> rfl
  · intro h1
    unfold processUserJoinedPlatformEvent
    simp [ha, hb, hm, h1]
  · intro h1 h2
    unfold processUserJoinedPlatformEvent
    simp [ha, hb, hm, h1, h2]
  · intro h1 h2 h3
    unfold processUserJoinedPlatformEvent
    simp [ha, hb, hm, h1, h2, h3]
  · intro h1 h2 h3
    unfold processUserJoinedPlatformEvent
    simp [ha, hb, hm, h1, h2, h3]

/-- Counter recomputation does not change any row's `profile_id`. -/
theorem any_pid_recomputeCounts (f g x : String) (rels : List RelationshipRow)
    (ps : List ProfileRow) :
    ((recomputeCounts f g rels ps).any fun p => p.profile_id == some x)
      = ps.any fun p => p.profile_id == some x := by
  unfold recomputeCounts
  rw [List.any_map, List.any_map]
  congr 1
  funext p
  dsimp only [Function.comp]
  split
  · split <;> rfl
  · split <;> rfl

/-- A Follow projection never changes which profile ids exist. -/
theorem profileExists_processFollow (now : Nat) (eid : Option String)
    (e : FollowEvent) (db : DB) (x : String) :
    profileExists (processFollowEvent now eid e db) x = profileExists db x := by
  unfold processFollowEvent followAfterLog
  dsimp only
  split
  · rfl
  · split
    · rfl
    · split
      · rfl
      · split
        · exact any_pid_recomputeCounts _ _ _ _ _
        · rfl

/-- Early-return lemma: when an endpoint is missing or the edge already
exists, a Follow projection only appends its audit row. -/
theorem processFollowEvent_skip (now : Nat) (eid : Option String)
    (e : FollowEvent) (s : DB)
    (h : profileExists s e.follower = false ∨ profileExists s e.following = false
       ∨ relationshipExists s e.follower e.following = true) :
    processFollowEvent now eid e s
      = { s with socialGraphEvents :=
            s.socialGraphEvents ++ [followLogRow now eid e] } := by
  unfold processFollowEvent followAfterLog
  have h1 : profileExists { s with socialGraphEvents :=
      s.socialGraphEvents ++ [followLogRow now eid e] } e.follower
      = profileExists s e.follower := rfl
  have h2 : profileExists { s with socialGraphEvents :=
      s.socialGraphEvents ++ [followLogRow now eid e] } e.following
      = profileExists s e.following := rfl
  have h3 : relationshipExists { s with socialGraphEvents :=
      s.socialGraphEvents ++ [followLogRow now eid e] } e.follower e.following
      = relationshipExists s e.follower e.following := rfl
  by_cases hf : profileExists s e.follower <;>
    by_cases hg : profileExists s e.following <;>
      rcases h with h | h | h <;>
        simp_all [h1, h2, h3]

/-- A failure-free Follow transaction always commits. -/
theorem followTx_ok (now : Nat) (eid : Option String) (e : FollowEvent)
    (s : DB) : (processFollowEventTx (fun _ => false) now eid e s).2 = true := by
  rw [processFollowEventTx, runTx, followTxBody_noFail]

/-- An existing profile id always yields an owner-address lookup hit. -/
theorem ownerAddressOf_of_exists {db : DB} {x : String}
    (h : profileExists db x = true) : ∃ a, ownerAddressOf db x = some a := by
  unfold profileExists at h
  rw [List.any_eq_true] at h
  have hs : (db.profiles.find? fun p => p.profile_id == some x).isSome := by
    rw [List.find?_isSome]
    exact h
  obtain ⟨q, hq⟩ := Option.isSome_iff_exists.mp hs
  exact ⟨q.owner_address, by unfold ownerAddressOf; rw [hq]; rfl⟩

/-- After one Follow projection, a replay of the same event necessarily
hits one of the three early returns. -/
theorem followSkipAfter (now : Nat) (eid : Option String) (e : FollowEvent)
    (db : DB) :
    profileExists (processFollowEvent now eid e db) e.follower = false
    ∨ profileExists (processFollowEvent now eid e db) e.following = false
    ∨ relationshipExists (processFollowEvent now eid e db) e.follower
        e.following = true := by
  by_cases hf : profileExists db e.follower
  · by_cases hg : profileExists db e.following
    · by_cases hr : relationshipExists db e.follower e.following
      · right; right
        rw [processFollowEvent_skip now eid e db (Or.inr (Or.inr hr))]
        exact hr
      · right; right
        obtain ⟨a, ha⟩ := ownerAddressOf_of_exists (x := e.follower) hf
        obtain ⟨b, hb⟩ := ownerAddressOf_of_exists (x := e.following) hg
        unfold processFollowEvent followAfterLog
        have h1 : profileExists { db with socialGraphEvents :=
            db.socialGraphEvents ++ [followLogRow now eid e] } e.follower
            = profileExists db e.follower := rfl
        have h2 : profileExists { db with socialGraphEvents :=
            db.socialGraphEvents ++ [followLogRow now eid e] } e.following
            = profileExists db e.following := rfl
        have h3 : relationshipExists { db with socialGraphEvents :=
            db.socialGraphEvents ++ [followLogRow now eid e] } e.follower
            e.following = relationshipExists db e.follower e.following := rfl
        have h4 : ownerAddressOf { db with socialGraphEvents :=
            db.socialGraphEvents ++ [followLogRow now eid e] } e.follower
            = ownerAddressOf db e.follower := rfl
        have h5 : ownerAddressOf { db with socialGraphEvents :=
            db.socialGraphEvents ++ [followLogRow now eid e] } e.following
            = ownerAddressOf db e.following := rfl
        simp only [h1, h2, h3, h4, h5, hf, hg, hr, ha, hb, Bool.not_true,
          Bool.false_eq_true, if_false]
        unfold relationshipExists
        simp [hr]
    · right; left
      rw [profileExists_processFollow]
      simpa using hg
  · left
    rw [profileExists_processFollow]
    simpa using hf

/-- C5: replaying the same Follow event is a no-op on every
current-state table and not an error — the second application changes
nothing but the append-only audit log (one more history row), so the
relationship table holds no duplicate edge and no counter is
double-counted. -/
theorem c5_follow_idempotent (now1 now2 : Nat) (eid1 eid2 : Option String)
    (e : FollowEvent) (db : DB) :
    processFollowEvent now2 eid2 e (processFollowEvent now1 eid1 e db)
      = { processFollowEvent now1 eid1 e db with
            socialGraphEvents :=
              (processFollowEvent now1 eid1 e db).socialGraphEvents ++
                [followLogRow now2 eid2 e] }
    ∧ (processFollowEventTx (fun _ => false) now2 eid2 e
        (processFollowEvent now1 eid1 e db)).2 = true :=
  ⟨processFollowEvent_skip now2 eid2 e _ (followSkipAfter now1 eid1 e db),
   followTx_ok now2 eid2 e _⟩

/-- One profile row's counters agree with the aggregate counts over the
relationship table (rows without a chain id never match a relationship
and are never updated). -/
def profileCountsOk (rels : List RelationshipRow) (p : ProfileRow) : Bool :=
  match p.profile_id with
  | some a => (p.following_count == countFollowing rels a) &&
              (p.followers_count == countFollowers rels a)
  | none => true

/-- Counter consistency: every stored counter equals the corresponding
aggregate COUNT over the relationship table. -/
def countsConsistent (db : DB) : Bool :=
  db.profiles.all (profileCountsOk db.relationships)

/-- Appending an edge with another follower leaves a follower's aggregate
count unchanged. -/
theorem countFollowing_append_ne (f g a : String) (ts : Nat)
    (rels : List RelationshipRow) (hne : a ≠ f) :
    countFollowing (rels ++ [{ follower_address := f, following_address := g
                             , created_at := ts }]) a
      = countFollowing rels a := by
  unfold countFollowing
  rw [List.filter_append]
  have : (f == a) = false := by simp [Ne.symm hne]
  simp [this]

/-- Appending an edge with another followed profile leaves a followers
aggregate count unchanged. -/
theorem countFollowers_append_ne (f g a : String) (ts : Nat)
    (rels : List RelationshipRow) (hne : a ≠ g) :
    countFollowers (rels ++ [{ follower_address := f, following_address := g
                             , created_at := ts }]) a
      = countFollowers rels a := by
  unfold countFollowers
  rw [List.filter_append]
  have : (g == a) = false := by simp [Ne.symm hne]
  simp [this]

/-- Deleting the `(f, g)` edges leaves the aggregate following count of
any other follower unchanged. -/
theorem countFollowing_filter_ne (f g a : String)
    (rels : List RelationshipRow) (hne : a ≠ f) :
    countFollowing (rels.filter fun r =>
        !(r.follower_address == f && r.following_address == g)) a
      = countFollowing rels a := by
  unfold countFollowing
  rw [List.filter_filter]
  have hcong : ∀ r ∈ rels,
      (r.follower_address == a &&
        !(r.follower_address == f && r.following_address == g))
        = (r.follower_address == a) := by
    intro r _
    by_cases hr : r.follower_address = a
    · have hrf : (r.follower_address == f) = false := by rw [hr]; simp [hne]
      simp [hr, hrf, hne]
    · simp [hr]
  rw [List.filter_congr hcong]

/-- Deleting the `(f, g)` edges leaves the aggregate followers count of
any other followed profile unchanged. -/
theorem countFollowers_filter_ne (f g a : String)
    (rels : List RelationshipRow) (hne : a ≠ g) :
    countFollowers (rels.filter fun r =>
        !(r.follower_address == f && r.following_address == g)) a
      = countFollowers rels a := by
  unfold countFollowers
  rw [List.filter_filter]
  have hcong : ∀ r ∈ rels,
      (r.following_address == a &&
        !(r.follower_address == f && r.following_address == g))
        = (r.following_address == a) := by
    intro r _
    by_cases hr : r.following_address = a
    · have hrg : (r.following_address == g) = false := by rw [hr]; simp [hne]
      simp [hr, hrg, hne]
    · simp [hr]
  rw [List.filter_congr hcong]

/-- Recomputing the two affected counters by aggregate query restores
counter consistency after any relationship mutation that only touches
the `(f, g)` edge. -/
theorem countsOk_recompute (f g : String) (rels rels' : List RelationshipRow)
    (ps : List ProfileRow)
    (hfol : ∀ a, a ≠ f → countFollowing rels' a = countFollowing rels a)
    (hfer : ∀ a, a ≠ g → countFollowers rels' a = countFollowers rels a)
    (h : ps.all (profileCountsOk rels) = true) :
    (recomputeCounts f g rels' ps).all (profileCountsOk rels') = true := by
  rw [List.all_eq_true] at h ⊢
  intro p' hp'
  unfold recomputeCounts at hp'
  rw [List.mem_map] at hp'
  obtain ⟨p1, hp1, rfl⟩ := hp'
  rw [List.mem_map] at hp1
  obtain ⟨p, hp, rfl⟩ := hp1
  have hpo := h p hp
  unfold profileCountsOk at hpo ⊢
  cases hpid : p.profile_id with
  | none => simp [hpid]
  | some a =>
    rw [hpid] at hpo
    rw [Bool.and_eq_true, beq_iff_eq, beq_iff_eq] at hpo
    by_cases haf : a = f
    · by_cases hag : a = g
      · subst haf
        subst hag
        simp [hpid, hpo.1, hpo.2]
      · subst haf
        simp [hpid, hag, hpo.2, hfer a hag]
    · by_cases hag : a = g
      · subst hag
        simp [hpid, haf, hpo.1, hfol a haf]
      · simp [hpid, haf, hag, hpo.1, hpo.2, hfol a haf, hfer a hag]

/-- A Follow projection preserves counter consistency. -/
theorem countsConsistent_processFollow (now : Nat) (eid : Option String)
    (e : FollowEvent) (db : DB) (h : countsConsistent db = true) :
    countsConsistent (processFollowEvent now eid e db) = true := by
  unfold processFollowEvent followAfterLog
  dsimp only
  split
  · exact h
  · split
    · exact h
    · split
      · exact h
      · rename_i hrel
        split
        · unfold countsConsistent
          dsimp only
          exact countsOk_recompute e.follower e.following db.relationships _
            db.profiles
            (fun a ha => countFollowing_append_ne e.follower e.following a
              (e.timestamp.getD now) db.relationships ha)
            (fun a ha => countFollowers_append_ne e.follower e.following a
              (e.timestamp.getD now) db.relationships ha)
            h
        · exact h

/-- An Unfollow projection preserves counter consistency. -/
theorem countsConsistent_processUnfollow (now : Nat) (eid : Option String)
    (e : UnfollowEvent) (db : DB) (h : countsConsistent db = true) :
    countsConsistent (processUnfollowEvent now eid e db) = true := by
  unfold processUnfollowEvent
  dsimp only
  split
  · exact h
  · split
    · unfold countsConsistent
      dsimp only
      exact countsOk_recompute _ _ db.relationships _ db.profiles
        (fun a ha => countFollowing_filter_ne _ _ a db.relationships ha)
        (fun a ha => countFollowers_filter_ne _ _ a db.relationships ha)
        h
    · exact h

/-- A social-graph event: a Follow or an Unfollow. -/
inductive SGEvent where
  | follow (e : FollowEvent)
  | unfollow (e : UnfollowEvent)
deriving Repr

/-- Project a sequence of Follow/Unfollow events, each with its wall
clock and chain event id. -/
def applySGEvents : List (Nat × Option String × SGEvent) → DB → DB
  | [], db => db
  | (now, eid, .follow e) :: rest, db =>
    applySGEvents rest (processFollowEvent now eid e db)
  | (now, eid, .unfollow e) :: rest, db =>
    applySGEvents rest (processUnfollowEvent now eid e db)

/-- C1: after any sequence of Follow and Unfollow events — duplicates and
reorderings included — every profile's stored `following_count` equals
the aggregate COUNT of relationship rows in which it is the follower,
and `followers_count` the count of rows in which it is followed; the
projection maintains the counters by recomputing these aggregates after
every relationship mutation. -/
theorem c1_counter_consistency (evs : List (Nat × Option String × SGEvent))
    (db : DB) (h : countsConsistent db = true) :
    countsConsistent (applySGEvents evs db) = true := by
  induction evs generalizing db with
  | nil => exact h
  | cons tev rest ih =>
    obtain ⟨now, eid, ev⟩ := tev
    cases ev with
    | follow e =>
      exact ih _ (countsConsistent_processFollow now eid e db h)
    | unfollow e =>
      exact ih _ (countsConsistent_processUnfollow now eid e db h)

/-- The gating invariant of the spec: no platform with `is_approved =
false` has any membership row. -/
def GatingInvariant (db : DB) : Prop :=
  ∀ pl ∈ db.platforms, pl.is_approved = false →
    ∀ m ∈ db.memberships, m.platform_id ≠ pl.platform_id

instance (db : DB) : Decidable (GatingInvariant db) := by
  unfold GatingInvariant
  infer_instance

/-- Whether an event revokes a platform approval. -/
def isRevocation : Ev → Bool
  | .approvalChanged e => !e.is_approved
  | _ => false

/-- No event of the sequence revokes an approval. -/
def NoApprovalRevocation (evs : List TimedEv) : Prop :=
  ∀ tev ∈ evs, isRevocation tev.2.2 = false

instance (evs : List TimedEv) : Decidable (NoApprovalRevocation evs) := by
  unfold NoApprovalRevocation
  infer_instance

/-- Platform ids are unique. -/
def PlatformIdsNodup (db : DB) : Prop :=
  (db.platforms.map (·.platform_id)).Nodup

/-- Every membership row points at an existing, approved platform. -/
def MembershipsApproved (db : DB) : Prop :=
  ∀ m ∈ db.memberships, ∃ pl ∈ db.platforms,
    pl.platform_id = m.platform_id ∧ pl.is_approved = true

/-- The inductive invariant behind the gating property. -/
def JoinGateInv (db : DB) : Prop :=
  PlatformIdsNodup db ∧ MembershipsApproved db

/-- Handlers that never touch the `platforms` or `platform_memberships`
tables. -/
theorem platMem_processProfileCreated (e : ProfileCreatedEvent) (db : DB) :
    (processProfileCreated e db).platforms = db.platforms ∧
    (processProfileCreated e db).memberships = db.memberships := by
  unfold processProfileCreated
  dsimp only
  repeat' split
  all_goals exact ⟨rfl, rfl⟩

/-- A Follow projection never touches platforms or memberships. -/
theorem platMem_processFollow (now : Nat) (eid : Option String)
    (e : FollowEvent) (db : DB) :
    (processFollowEvent now eid e db).platforms = db.platforms ∧
    (processFollowEvent now eid e db).memberships = db.memberships := by
  unfold processFollowEvent followAfterLog
  dsimp only
  repeat' split
  all_goals exact ⟨rfl, rfl⟩

/-- An Unfollow projection never touches platforms or memberships. -/
theorem platMem_processUnfollow (now : Nat) (eid : Option String)
    (e : UnfollowEvent) (db : DB) :
    (processUnfollowEvent now eid e db).platforms = db.platforms ∧
    (processUnfollowEvent now eid e db).memberships = db.memberships := by
  unfold processUnfollowEvent
  dsimp only
  repeat' split
  all_goals exact ⟨rfl, rfl⟩

/-- A platform-handler block projection never touches platforms or
memberships. -/
theorem platMem_processProfileBlockedP (now : Nat) (eid : Option String)
    (e : PlatformBlockedProfileEvent) (db : DB) :
    (processProfileBlockedEventP now eid e db).platforms = db.platforms ∧
    (processProfileBlockedEventP now eid e db).memberships = db.memberships := by
  unfold processProfileBlockedEventP
  dsimp only
  repeat' split
  all_goals exact ⟨rfl, rfl⟩

/-- A platform-handler unblock projection never touches platforms or
memberships. -/
theorem platMem_processProfileUnblockedP (now : Nat) (eid : Option String)
    (e : PlatformUnblockedProfileEvent) (db : DB) :
    (processProfileUnblockedEventP now eid e db).platforms = db.platforms ∧
    (processProfileUnblockedEventP now eid e db).memberships = db.memberships :=
  ⟨rfl, rfl⟩

/-- A user-level block projection never touches platforms or memberships. -/
theorem platMem_processProfileBlock (fl : Bool) (now : Nat)
    (e : UserBlockEvent) (db : DB) :
    (processProfileBlockEventF fl now e db).platforms = db.platforms ∧
    (processProfileBlockEventF fl now e db).memberships = db.memberships := by
  unfold processProfileBlockEventF
  repeat' split
  all_goals exact ⟨rfl, rfl⟩

/-- A user-level unblock projection never touches platforms or
memberships. -/
theorem platMem_processProfileUnblock (fl : Bool) (now : Nat)
    (e : UserUnblockEvent) (db : DB) :
    (processProfileUnblockEventF fl now e db).platforms = db.platforms ∧
    (processProfileUnblockEventF fl now e db).memberships = db.memberships := by
  unfold processProfileUnblockEventF
  repeat' split
  all_goals exact ⟨rfl, rfl⟩

/-- A platform-block log projection never touches platforms or
memberships. -/
theorem platMem_processPlatformBlockLog (now : Nat)
    (e : PlatformBlockedProfileEvent) (db : DB) :
    (processPlatformBlockLogEvent now e db).platforms = db.platforms ∧
    (processPlatformBlockLogEvent now e db).memberships = db.memberships := by
  unfold processPlatformBlockLogEvent
  repeat' split
  all_goals exact ⟨rfl, rfl⟩

/-- A platform-unblock log projection never touches platforms or
memberships. -/
theorem platMem_processPlatformUnblockLog (now : Nat)
    (e : PlatformUnblockedProfileEvent) (db : DB) :
    (processPlatformUnblockLogEvent now e db).platforms = db.platforms ∧
    (processPlatformUnblockLogEvent now e db).memberships = db.memberships := by
  unfold processPlatformUnblockLogEvent
  repeat' split
  all_goals exact ⟨rfl, rfl⟩

/-- The join-gate invariant only reads platforms and memberships. -/
theorem joinGateInv_congr {db1 db2 : DB} (hp : db2.platforms = db1.platforms)
    (hm : db2.memberships = db1.memberships) (h : JoinGateInv db1) :
    JoinGateInv db2 := by
  unfold JoinGateInv PlatformIdsNodup MembershipsApproved at h ⊢
  rw [hp, hm]
  exact h

/-- Mapping the platform table with an id-preserving transform keeps the
ids duplicate-free. -/
theorem nodupIds_map (ps : List PlatformRow) (t : PlatformRow → PlatformRow)
    (hid : ∀ pl, (t pl).platform_id = pl.platform_id)
    (h : (ps.map (·.platform_id)).Nodup) :
    ((ps.map t).map (·.platform_id)).Nodup := by
  rw [List.map_map]
  have hfun : ((fun x : PlatformRow => x.platform_id) ∘ t)
      = fun x : PlatformRow => x.platform_id := funext fun pl => hid pl
  rw [hfun]
  exact h

/-- Platform creation preserves the join-gate invariant. -/
theorem joinGateInv_platformCreated (now : Nat) (eid : Option String)
    (e : PlatformCreatedEvent) (db : DB) (h : JoinGateInv db) :
    JoinGateInv (processPlatformCreatedEvent now eid e db) := by
  obtain ⟨hnd, hma⟩ := h
  unfold processPlatformCreatedEvent
  dsimp only
  split
  · constructor
    · unfold PlatformIdsNodup
      dsimp only
      exact nodupIds_map db.platforms _
        (fun pl => by by_cases hc : (pl.platform_id == e.platform_id) = true <;> simp [hc]) hnd
    · intro m hm
      obtain ⟨pl, hpl, hid, ha⟩ := hma m hm
      refine ⟨_, List.mem_map_of_mem _ hpl, ?_, ?_⟩
      · split <;> exact hid
      · split <;> exact ha
  · rename_i hex
    have hnotin : ∀ pl ∈ db.platforms, pl.platform_id ≠ e.platform_id := by
      intro pl hpl heq
      have : platformExists { db with platformEvents := db.platformEvents ++
          [platformLogRow "PlatformCreatedEvent" e.platform_id eid now] }
          e.platform_id = true := by
        unfold platformExists
        rw [List.any_eq_true]
        exact ⟨pl, hpl, by simp [heq]⟩
      simp [this] at hex
    constructor
    · unfold PlatformIdsNodup
      dsimp only
      rw [List.map_append]
      simp only [List.map_cons, List.map_nil]
      rw [List.nodup_append]
      refine ⟨hnd, by simp, ?_⟩
      intro x hx hx'
      rw [List.mem_singleton] at hx'
      rw [List.mem_map] at hx
      obtain ⟨pl, hpl, rfl⟩ := hx
      exact hnotin pl hpl hx'
    · intro m hm
      obtain ⟨pl, hpl, hid, ha⟩ := hma m hm
      exact ⟨pl, List.mem_append_left _ hpl, hid, ha⟩

/-- A non-revoking approval change preserves the join-gate invariant. -/
theorem joinGateInv_approvalChanged (now : Nat) (eid : Option String)
    (e : PlatformApprovalChangedEvent) (db : DB)
    (happ : e.is_approved = true) (h : JoinGateInv db) :
    JoinGateInv (processPlatformApprovalChangedEvent now eid e db) := by
  obtain ⟨hnd, hma⟩ := h
  unfold processPlatformApprovalChangedEvent
  dsimp only
  split
  · constructor
    · unfold PlatformIdsNodup
      dsimp only
      exact nodupIds_map db.platforms _
        (fun pl => by by_cases hc : (pl.platform_id == e.platform_id) = true <;> simp [hc]) hnd
    · intro m hm
      obtain ⟨pl, hpl, hid, ha⟩ := hma m hm
      refine ⟨_, List.mem_map_of_mem _ hpl, ?_, ?_⟩
      · split <;> exact hid
      · split
        · exact happ
        · exact ha
  · exact ⟨hnd, hma⟩

/-- A gated join preserves the join-gate invariant. -/
theorem joinGateInv_userJoined (now : Nat) (eid : Option String)
    (e : UserJoinedPlatformEvent) (db : DB) (h : JoinGateInv db) :
    JoinGateInv (processUserJoinedPlatformEvent now eid e db) := by
  obtain ⟨hnd, hma⟩ := h
  unfold processUserJoinedPlatformEvent
  dsimp only
  split
  · exact ⟨hnd, hma⟩
  · rename_i happr
    split
    · exact ⟨hnd, hma⟩
    · split
      · exact ⟨hnd, hma⟩
      · constructor
        · exact hnd
        · intro m hm
          rw [List.mem_append] at hm
          rcases hm with hm | hm
          · exact hma m hm
          · rw [List.mem_singleton] at hm
            subst hm
            have happr' : platformIsApproved db e.platform_id = true := by
              simp at happr
              exact happr
            unfold platformIsApproved at happr'
            split at happr'
            · rename_i pl hfind
              have hbeq : (pl.platform_id == e.platform_id) = true :=
                List.find?_some (p := fun pl : PlatformRow => pl.platform_id == e.platform_id)
                  hfind
              exact ⟨pl, List.mem_of_find?_eq_some hfind,
                beq_iff_eq.mp hbeq, happr'⟩
            · exact absurd happr' (by simp)

/-- A leave event preserves the join-gate invariant. -/
theorem joinGateInv_userLeft (now : Nat) (eid : Option String)
    (e : UserLeftPlatformEvent) (db : DB) (h : JoinGateInv db) :
    JoinGateInv (processUserLeftPlatformEvent now eid e db) := by
  obtain ⟨hnd, hma⟩ := h
  unfold processUserLeftPlatformEvent
  dsimp only
  split
  · constructor
    · exact hnd
    · intro m hm
      rw [List.mem_filter] at hm
      exact hma m hm.1
  · exact ⟨hnd, hma⟩

/-- Every non-revoking event preserves the join-gate invariant. -/
theorem joinGateInv_applyEv (now : Nat) (eid : Option String) (ev : Ev)
    (db : DB) (hrev : isRevocation ev = false) (h : JoinGateInv db) :
    JoinGateInv (applyEv now eid ev db) := by
  cases ev with
  | profileCreated e =>
    exact joinGateInv_congr (platMem_processProfileCreated e db).1
      (platMem_processProfileCreated e db).2 h
  | follow e =>
    exact joinGateInv_congr (platMem_processFollow now eid e db).1
      (platMem_processFollow now eid e db).2 h
  | unfollow e =>
    exact joinGateInv_congr (platMem_processUnfollow now eid e db).1
      (platMem_processUnfollow now eid e db).2 h
  | platformCreated e => exact joinGateInv_platformCreated now eid e db h
  | approvalChanged e =>
    have : e.is_approved = true := by
      unfold isRevocation at hrev
      simpa using hrev
    exact joinGateInv_approvalChanged now eid e db this h
  | userJoined e => exact joinGateInv_userJoined now eid e db h
  | userLeft e => exact joinGateInv_userLeft now eid e db h
  | platformBlocked e =>
    exact joinGateInv_congr (platMem_processProfileBlockedP now eid e db).1
      (platMem_processProfileBlockedP now eid e db).2 h
  | platformUnblocked e =>
    exact joinGateInv_congr (platMem_processProfileUnblockedP now eid e db).1
      (platMem_processProfileUnblockedP now eid e db).2 h
  | userBlock e =>
    exact joinGateInv_congr (platMem_processProfileBlock false now e db).1
      (platMem_processProfileBlock false now e db).2 h
  | userUnblock e =>
    exact joinGateInv_congr (platMem_processProfileUnblock false now e db).1
      (platMem_processProfileUnblock false now e db).2 h
  | platformBlockLog e =>
    exact joinGateInv_congr (platMem_processPlatformBlockLog now e db).1
      (platMem_processPlatformBlockLog now e db).2 h
  | platformUnblockLog e =>
    exact joinGateInv_congr (platMem_processPlatformUnblockLog now e db).1
      (platMem_processPlatformUnblockLog now e db).2 h

/-- A revocation-free event sequence preserves the join-gate invariant. -/
theorem joinGateInv_applyEvents (evs : List TimedEv) (db : DB)
    (hrev : NoApprovalRevocation evs) (h : JoinGateInv db) :
    JoinGateInv (applyEvents evs db) := by
  induction evs generalizing db with
  | nil => exact h
  | cons tev rest ih =>
    obtain ⟨now, eid, ev⟩ := tev
    exact ih _ (fun t ht => hrev t (List.mem_cons_of_mem _ ht))
      (joinGateInv_applyEv now eid ev db
        (hrev (now, eid, ev) (List.mem_cons_self _ _)) h)

/-- The empty database satisfies the join-gate invariant. -/
theorem joinGateInv_empty : JoinGateInv DB.empty := by
  constructor
  · unfold PlatformIdsNodup DB.empty
    simp
  · intro m hm
    simp [DB.empty] at hm

/-- The join-gate invariant implies the spec's gating invariant. -/
theorem gating_of_joinGateInv {db : DB} (h : JoinGateInv db) :
    GatingInvariant db := by
  obtain ⟨hnd, hma⟩ := h
  intro pl hpl hfalse m hm heq
  obtain ⟨pl', hpl', hid, happ⟩ := hma m hm
  have hple : pl' = pl :=
    List.inj_on_of_nodup_map hnd hpl' hpl (by rw [hid, heq])
  rw [hple] at happ
  rw [happ] at hfalse
  simp at hfalse

/-- A concrete platform-creation event used by the counterexamples. -/
def pcP1 : PlatformCreatedEvent :=
  { platform_id := "p1", name := "n", tagline := "t", description := none
  , developer := "0xdev", logo := none, terms_of_service := "tos"
  , privacy_policy := "pp", platforms := [], links := [], status := 0
  , release_date := "rd" }

/-- Create `p1`, approve it, join `u1`, then revoke the approval. -/
def c3seq : List TimedEv :=
  [(0, none, .platformCreated pcP1)
  , (1, none, .approvalChanged
      { platform_id := "p1", is_approved := true, approved_by := "0xadmin"
      , changed_at := 1 })
  , (2, none, .userJoined
      { profile_id := "u1", platform_id := "p1", user := "0xu", timestamp := 2 })
  , (3, none, .approvalChanged
      { platform_id := "p1", is_approved := false, approved_by := "0xadmin"
      , changed_at := 3 })]

/-- C3 counterexample: revoking a platform's approval does not delete its
membership rows, so a reachable state has an unapproved platform with a
membership — the gating invariant as claimed fails. -/
theorem c3_counterexample :
    ¬ GatingInvariant (applyEvents c3seq DB.empty) := by decide

/-- C3 amended: processing a UserJoinedPlatform event never inserts a
membership for a missing or unapproved platform, so along any projected
event sequence that contains no approval-revoking PlatformApprovalChanged
event, every platform with `is_approved = false` has no membership rows;
a revocation, however, leaves previously created memberships in place. -/
theorem c3_gating_invariant (evs : List TimedEv)
    (hrev : NoApprovalRevocation evs) :
    GatingInvariant (applyEvents evs DB.empty) :=
  gating_of_joinGateInv (joinGateInv_applyEvents evs DB.empty hrev
    joinGateInv_empty)

/-- Witness: the gating invariant holds after create → approve → join. -/
theorem c3_gating_invariant_witness :
    NoApprovalRevocation (c3seq.take 3)
    ∧ GatingInvariant (applyEvents (c3seq.take 3) DB.empty) :=
  ⟨by decide, c3_gating_invariant (c3seq.take 3) (by decide)⟩

/-- C4 counterexample: with platform `p1` approved and no ProfileCreated
event ever processed, a UserJoinedPlatform event still inserts the
membership row — the handler checks approval and platform-level blocks
but has no profile-existence check. -/
theorem c4_counterexample :
    (applyEvents (c3seq.take 3) DB.empty).profiles = []
    ∧ (applyEvents (c3seq.take 3) DB.empty).memberships
        = [{ platform_id := "p1", profile_id := "u1", joined_at := 2 }] :=
  ⟨rfl, rfl⟩

/-- C4 amended: a join processed before the profile exists does not crash
(the handler is total and returns success); it creates no membership when
the platform is missing, unapproved, or blocks the profile — but an
approved, non-blocking platform admits the membership with no
profile-existence check; and a later ProfileCreated never touches the
membership table, so it cannot retroactively create (or need) one. -/
theorem c4_order_tolerance :
    (∀ (now : Nat) (eid : Option String) (e : UserJoinedPlatformEvent)
        (db : DB), platformIsApproved db e.platform_id = false →
        (processUserJoinedPlatformEvent now eid e db).memberships
          = db.memberships)
    ∧ (∀ (now : Nat) (eid : Option String) (e : UserJoinedPlatformEvent)
        (db : DB),
        profileIsBlockedByPlatform db e.platform_id e.profile_id = true →
        (processUserJoinedPlatformEvent now eid e db).memberships
          = db.memberships)
    ∧ (∀ (e : ProfileCreatedEvent) (db : DB),
        (processProfileCreated e db).memberships = db.memberships) := by
  refine ⟨?_, ?_, ?_⟩
  · intro now eid e db h1
    unfold processUserJoinedPlatformEvent
    have ha : platformIsApproved { db with platformEvents := db.platformEvents ++
        [platformLogRow "UserJoinedPlatformEvent" e.platform_id eid now] }
        e.platform_id = platformIsApproved db e.platform_id := rfl
    simp [ha, h1]
  · intro now eid e db h2
    unfold processUserJoinedPlatformEvent
    have ha : platformIsApproved { db with platformEvents := db.platformEvents ++
        [platformLogRow "UserJoinedPlatformEvent" e.platform_id eid now] }
        e.platform_id = platformIsApproved db e.platform_id := rfl
    have hb : profileIsBlockedByPlatform { db with platformEvents :=
        db.platformEvents ++
        [platformLogRow "UserJoinedPlatformEvent" e.platform_id eid now] }
        e.platform_id e.profile_id
        = profileIsBlockedByPlatform db e.platform_id e.profile_id := rfl
    by_cases h1 : platformIsApproved db e.platform_id <;> simp [ha, hb, h1, h2]
  · intro e db
    exact (platMem_processProfileCreated e db).2

/-- The post-log statements either abort or compute `followAfterLog`. -/
theorem followTxBodyAfterLog_cases (fails : Nat → Bool) (now : Nat)
    (e : FollowEvent) (s : DB) :
    followTxBodyAfterLog fails now e s = none
    ∨ followTxBodyAfterLog fails now e s = some (followAfterLog now e s) := by
  unfold followTxBodyAfterLog followAfterLog
  dsimp only
  split
  · right
    rfl
  · split
    · right
      rfl
    · rename_i hpf hpg
      by_cases h1 : fails 1 = true
      · rw [if_pos h1]
        left
        rfl
      · rw [if_neg h1]
        split
        · right
          rfl
        · have hpf' : profileExists s e.follower = true := by
            revert hpf
            simp
          have hpg' : profileExists s e.following = true := by
            revert hpg
            simp
          obtain ⟨a, ha⟩ := ownerAddressOf_of_exists hpf'
          obtain ⟨b, hb⟩ := ownerAddressOf_of_exists hpg'
          rw [ha, hb]
          by_cases h2 : fails 2 = true
          · rw [if_pos h2]
            left
            rfl
          · rw [if_neg h2]
            by_cases h3 : fails 3 = true
            · rw [if_pos h3]
              left
              rfl
            · rw [if_neg h3]
              by_cases h4 : fails 4 = true
              · rw [if_pos h4]
                left
                rfl
              · rw [if_neg h4]
                right
                rfl

/-- The whole transaction body either aborts or computes the committed
Follow projection. -/
theorem followTxBody_cases (fails : Nat → Bool) (now : Nat)
    (eid : Option String) (e : FollowEvent) (db : DB) :
    followTxBody fails now eid e db = none
    ∨ followTxBody fails now eid e db
        = some (processFollowEvent now eid e db) := by
  unfold followTxBody processFollowEvent
  by_cases h0 : fails 0 = true
  · rw [if_pos h0]
    left
    rfl
  · rw [if_neg h0]
    exact followTxBodyAfterLog_cases fails now e _

/-- Atomicity of the transactional Follow projection: whatever statement
fails, the observable database is either untouched (rollback) or the
fully committed projection. -/
theorem followTx_atomic (fails : Nat → Bool) (now : Nat) (eid : Option String)
    (e : FollowEvent) (db : DB) :
    processFollowEventTx fails now eid e db = (db, false)
    ∨ processFollowEventTx fails now eid e db
        = (processFollowEvent now eid e db, true) := by
  rcases followTxBody_cases fails now eid e db with h | h
  · left
    unfold processFollowEventTx runTx
    rw [h]
  · right
    unfold processFollowEventTx runTx
    rw [h]

/-- C6 counterexample: in the non-transactional user-level block
projection, a failure of the trailing profile-event-log insert is caught
and the call still succeeds, leaving the block row committed without its
log entry — a state strictly between untouched and fully applied, so
partial application of a single event is observable. -/
theorem c6_counterexample :
    (processProfileBlockEventF true 0 { blocker := "b1", blocked := "b2" }
        DB.empty).profilesBlocked
      = [{ blocker_profile_id := "b1", blocked_profile_id := "b2"
         , created_at := 0, is_blocked := true, unblocked_at := none }]
    ∧ (processProfileBlockEventF true 0 { blocker := "b1", blocked := "b2" }
        DB.empty).profileEvents = []
    ∧ (processProfileBlockEventF false 0 { blocker := "b1", blocked := "b2" }
        DB.empty).profileEvents
      = [blockAddedProfileRow 0 none "b1" "b2"] :=
  ⟨rfl, rfl, rfl⟩

/-- C6 amended: the blockchain handlers run each event's whole projection
inside one transaction — under failure injection a Follow projection is
observed either not at all (rollback, handler errors) or in full — but
the user-level blocking projection runs without a transaction: when its
trailing event-log insert fails, the block-row mutation stays applied
while the call returns success. -/
theorem c6_per_event_atomicity :
    (∀ (fails : Nat → Bool) (now : Nat) (eid : Option String)
        (e : FollowEvent) (db : DB),
        processFollowEventTx fails now eid e db = (db, false)
      ∨ processFollowEventTx fails now eid e db
          = (processFollowEvent now eid e db, true))
    ∧ (∀ (now : Nat) (e : UserBlockEvent) (db : DB),
        e.blocker ≠ "" → e.blocked ≠ "" →
        db.profilesBlocked.find? (fun r =>
          r.blocker_profile_id == e.blocker &&
          r.blocked_profile_id == e.blocked) = none →
        processProfileBlockEventF true now e db
          = { db with profilesBlocked := db.profilesBlocked ++
              [{ blocker_profile_id := e.blocker
               , blocked_profile_id := e.blocked, created_at := now
               , is_blocked := true, unblocked_at := none }] }
        ∧ processProfileBlockEventF false now e db
          = { db with
                profilesBlocked := db.profilesBlocked ++
                  [{ blocker_profile_id := e.blocker
                   , blocked_profile_id := e.blocked, created_at := now
                   , is_blocked := true, unblocked_at := none }]
              , profileEvents := db.profileEvents ++
                  [blockAddedProfileRow now none e.blocker e.blocked] }) := by
  constructor
  · exact followTx_atomic
  · intro now e db h1 h2 hfind
    unfold processProfileBlockEventF
    rw [hfind]
    simp [h1, h2]

/-- C7 counterexample: the platform handler also processes platform-level
block events and creates a `platform_blocked_profiles` relational row
(logging to the platform event-log, not the profile event-log), so these
events are not recorded only in the profile event-log. -/
theorem c7_counterexample :
    (processProfileBlockedEventP 0 none
      { platform_id := "p1", profile_id := "u1", blocked_by := "m1" }
      DB.empty).platformBlockedProfiles
      = [{ platform_id := "p1", profile_id := "u1", blocked_by := "m1"
         , created_at := 0 }]
    ∧ (processProfileBlockedEventP 0 none
      { platform_id := "p1", profile_id := "u1", blocked_by := "m1" }
      DB.empty).profileEvents = [] :=
  ⟨rfl, rfl⟩

/-- C7 amended: the blocking projector records platform-level block and
unblock events only as profile event-log rows tagged with the
`is_platform_block` marker and the platform id in the payload; the
platform projector, however, also projects the same events, appending to
the platform event-log and inserting (block: delete-then-reinsert) or
hard-deleting (unblock) rows of the `platform_blocked_profiles` table. -/
theorem c7_platform_block_recording :
    (∀ (now : Nat) (e : PlatformBlockedProfileEvent) (db : DB),
        e.platform_id ≠ "" → e.profile_id ≠ "" → e.blocked_by ≠ "" →
        processPlatformBlockLogEvent now e db
          = { db with profileEvents :=
                db.profileEvents ++ [platformBlockProfileRow now e] }
        ∧ (platformBlockProfileRow now e).event_data.lookup "is_platform_block"
            = some (.bool true)
        ∧ (platformBlockProfileRow now e).event_data.lookup "platform_id"
            = some (.str e.platform_id))
    ∧ (∀ (now : Nat) (e : PlatformUnblockedProfileEvent) (db : DB),
        e.platform_id ≠ "" → e.profile_id ≠ "" →
        processPlatformUnblockLogEvent now e db
          = { db with profileEvents :=
                db.profileEvents ++ [platformUnblockProfileRow now e] }
        ∧ (platformUnblockProfileRow now e).event_data.lookup "is_platform_block"
            = some (.bool true)
        ∧ (platformUnblockProfileRow now e).event_data.lookup "platform_id"
            = some (.str e.platform_id))
    ∧ (∀ (now : Nat) (eid : Option String) (e : PlatformBlockedProfileEvent)
        (db : DB),
        (processProfileBlockedEventP now eid e db).platformBlockedProfiles
          = (db.platformBlockedProfiles.filter fun r =>
              !(r.platform_id == e.platform_id && r.profile_id == e.profile_id))
            ++ [{ platform_id := e.platform_id, profile_id := e.profile_id
                , blocked_by := e.blocked_by, created_at := now }]
        ∧ (processProfileBlockedEventP now eid e db).platformEvents
          = db.platformEvents ++
              [platformLogRow "PlatformBlockedProfileEvent" e.platform_id eid now]
        ∧ (processProfileBlockedEventP now eid e db).profileEvents
          = db.profileEvents)
    ∧ (∀ (now : Nat) (eid : Option String)
        (e : PlatformUnblockedProfileEvent) (db : DB),
        (processProfileUnblockedEventP now eid e db).platformBlockedProfiles
          = (db.platformBlockedProfiles.filter fun r =>
              !(r.platform_id == e.platform_id && r.profile_id == e.profile_id))
        ∧ (processProfileUnblockedEventP now eid e db).platformEvents
          = db.platformEvents ++
              [platformLogRow "PlatformUnblockedProfileEvent" e.platform_id eid
                now]
        ∧ (processProfileUnblockedEventP now eid e db).profileEvents
          = db.profileEvents) := by
  refine ⟨?_, ?_, ?_, ?_⟩
  · intro now e db h1 h2 h3
    refine ⟨?_, rfl, rfl⟩
    unfold processPlatformBlockLogEvent
    simp [h1, h2, h3]
  · intro now e db h1 h2
    refine ⟨?_, rfl, rfl⟩
    unfold processPlatformUnblockLogEvent
    simp [h1, h2]
  · intro now eid e db
    unfold processProfileBlockedEventP
    dsimp only
    split
    · exact ⟨rfl, rfl, rfl⟩
    · rename_i hfind
      refine ⟨?_, rfl, rfl⟩
      have hall : ∀ r ∈ db.platformBlockedProfiles,
          (!(r.platform_id == e.platform_id && r.profile_id == e.profile_id))
            = true := by
        intro r hr
        have hne := List.find?_eq_none.mp hfind r hr
        cases hc : (r.platform_id == e.platform_id && r.profile_id == e.profile_id)
        · simp [hc]
        · exact absurd hc hne
      rw [List.filter_eq_self.mpr hall]
  · intro now eid e db
    exact ⟨rfl, rfl, rfl⟩

/-- A payload holding both directly deserializable top-level fields and a
`fields` container with different content. -/
def c8payload : Json :=
  .obj [("profile_id", .str "a"), ("owner_address", .str "o")
       , ("display_name", .str "d"), ("created_at", .num 7)
       , ("fields", .obj [("id", .str "x"), ("created_at", .num 5)])]

/-- What direct structural deserialization of `c8payload` yields. -/
def c8direct : ProfileCreatedEvent :=
  { profile_id := "a", owner_address := "o", username := none
  , display_name := "d", profile_photo := none, cover_photo := none
  , bio := none, created_at := 7 }

/-- What the manual-extraction pre-pass of `c8payload` yields. -/
def c8extracted : ProfileCreatedEvent :=
  { profile_id := "x", owner_address := "", username := none
  , display_name := "", profile_photo := none, cover_photo := none
  , bio := none, created_at := 5 }

/-- C8 counterexample: `c8payload` deserializes directly, yet
`parse_event::<ProfileCreatedEvent>` returns the value extracted from
the `fields` container instead — for profile event types the manual
extraction runs before direct deserialization, so the chain does not
stop at the direct success. -/
theorem c8_counterexample :
    deserProfileCreated 0 c8payload = some c8direct
    ∧ parseEventProfileCreated 0 c8payload = some c8extracted
    ∧ c8direct ≠ c8extracted :=
  ⟨rfl, rfl, by decide⟩

/-- C8 amended: for non-profile target types the decoder attempts direct
structural deserialization first and unwraps the nested container only
on failure, stopping at the first success; for profile target types a
manual field-extraction pre-pass runs before direct deserialization and
its success short-circuits the chain. -/
theorem c8_decoder_chain :
    (∀ (j : Json) (v : FollowEvent), deserFollow j = some v →
        parseEventFollow j = some v)
    ∧ (∀ j : Json, deserFollow j = none →
        parseEventFollow j = deserFollow (unwrapContainer j))
    ∧ (∀ (now : Nat) (j : Json) (v : ProfileCreatedEvent),
        profilePrePassPCE now j = some v →
        parseEventProfileCreated now j = some v)
    ∧ (∀ (now : Nat) (j : Json) (v : ProfileCreatedEvent),
        profilePrePassPCE now j = none →
        deserProfileCreated now j = some v →
        parseEventProfileCreated now j = some v)
    ∧ (∀ (now : Nat) (j : Json),
        profilePrePassPCE now j = none →
        deserProfileCreated now j = none →
        parseEventProfileCreated now j
          = deserProfileCreated now (unwrapContainer j)) := by
  refine ⟨?_, ?_, ?_, ?_, ?_⟩
  · intro j v h
    unfold parseEventFollow
    rw [h]
  · intro j h
    unfold parseEventFollow
    rw [h]
  · intro now j v h
    unfold parseEventProfileCreated
    rw [h]
  · intro now j v h1 h2
    unfold parseEventProfileCreated
    rw [h1, h2]
  · intro now j h1 h2
    unfold parseEventProfileCreated
    rw [h1, h2]

/-- C10: the two unblock variants coexist: a user-level UserUnblock
soft-deletes — every matching `profiles_blocked` row is retained with
`is_blocked := false` and `unblocked_at := now` and the row count is
unchanged — while the platform-level PlatformUnblockedProfile handler
hard-deletes the matching `platform_blocked_profiles` rows; in both
cases a missing row is not an error (the projections are total and the
user-level path still appends its BlockRemoved log entry). -/
theorem c10_unblock_variants :
    (∀ (now : Nat) (e : UserUnblockEvent) (db : DB),
        e.blocker ≠ "" → e.unblocked ≠ "" →
        processProfileUnblockEvent now e db
          = { db with
                profilesBlocked := db.profilesBlocked.map fun r =>
                  if r.blocker_profile_id == e.blocker &&
                      r.blocked_profile_id == e.unblocked
                  then { r with is_blocked := false, unblocked_at := some now }
                  else r
              , profileEvents := db.profileEvents ++
                  [blockRemovedProfileRow now none e.blocker e.unblocked] }
        ∧ (processProfileUnblockEvent now e db).profilesBlocked.length
            = db.profilesBlocked.length
        ∧ ∀ r ∈ (processProfileUnblockEvent now e db).profilesBlocked,
            (r.blocker_profile_id == e.blocker &&
              r.blocked_profile_id == e.unblocked) = true →
            r.is_blocked = false ∧ r.unblocked_at = some now)
    ∧ (∀ (now : Nat) (eid : Option String) (e : PlatformUnblockedProfileEvent)
        (db : DB),
        (processProfileUnblockedEventP now eid e db).platformBlockedProfiles
          = (db.platformBlockedProfiles.filter fun r =>
              !(r.platform_id == e.platform_id && r.profile_id == e.profile_id))
        ∧ ∀ r ∈ (processProfileUnblockedEventP now eid e db).platformBlockedProfiles,
            (r.platform_id == e.platform_id && r.profile_id == e.profile_id)
              = false) := by
  constructor
  · intro now e db h1 h2
    have hrec : processProfileUnblockEvent now e db
        = { db with
              profilesBlocked := db.profilesBlocked.map fun r =>
                if r.blocker_profile_id == e.blocker &&
                    r.blocked_profile_id == e.unblocked
                then { r with is_blocked := false, unblocked_at := some now }
                else r
            , profileEvents := db.profileEvents ++
                [blockRemovedProfileRow now none e.blocker e.unblocked] } := by
      unfold processProfileUnblockEvent processProfileUnblockEventF
      simp [h1, h2]
    refine ⟨hrec, ?_, ?_⟩
    · rw [hrec]
      exact List.length_map _ _
    · intro r hr hmatch
      rw [hrec] at hr
      rw [List.mem_map] at hr
      obtain ⟨p, hp, rfl⟩ := hr
      by_cases hc : (p.blocker_profile_id == e.blocker &&
          p.blocked_profile_id == e.unblocked) = true
      · rw [if_pos hc]
        exact ⟨rfl, rfl⟩
      · rw [if_neg hc]
        rw [if_neg hc] at hmatch
        exact absurd hmatch hc
  · intro now eid e db
    refine ⟨rfl, ?_⟩
    intro r hr
    have := (List.mem_filter.mp hr).2
    cases hc : (r.platform_id == e.platform_id && r.profile_id == e.profile_id)
    · rfl
    · rw [hc] at this
      simp at this

/-! ## Witnesses -/

/-- Concrete Follow/Unfollow sequence with a duplicate follow. -/
def c1wseq : List (Nat × Option String × SGEvent) :=
  [ (1, none, .follow { follower := "a", following := "b", timestamp := none })
  , (2, some "e", .follow { follower := "a", following := "b", timestamp := none })
  , (3, none, .unfollow { follower := "a", unfollowed := "b", timestamp := none }) ]

/-- Witness for C1 on a concrete event sequence from the empty state. -/
theorem c1_counter_consistency_witness :
    countsConsistent DB.empty = true
    ∧ countsConsistent (applySGEvents c1wseq DB.empty) = true :=
  ⟨by decide, c1_counter_consistency c1wseq DB.empty (by decide)⟩

/-- An approved platform row for the C2 witness. -/
def c2wplat : PlatformRow :=
  { platform_id := "p1", name := "n", tagline := "t", description := none
  , logo := none, developer_address := "d", terms_of_service := none
  , privacy_policy := none, platform_names := [], links := [], status := 0
  , release_date := none, shutdown_date := none, is_approved := true
  , approval_changed_at := none, approved_by := none, created_at := 0
  , updated_at := 0 }

/-- State holding only the approved platform `p1`. -/
def c2wdb : DB := { DB.empty with platforms := [c2wplat] }

/-- Concrete join event for the C2 witness. -/
def c2wev : UserJoinedPlatformEvent :=
  { profile_id := "u1", platform_id := "p1", user := "u1", timestamp := 9 }

/-- Witness for C2: all gates pass, so the membership and both log rows
are written. -/
theorem c2_user_joined_gated_witness :
    platformIsApproved c2wdb c2wev.platform_id = true
    ∧ profileIsBlockedByPlatform c2wdb c2wev.platform_id c2wev.profile_id = false
    ∧ membershipExists c2wdb c2wev.platform_id c2wev.profile_id = false
    ∧ processUserJoinedPlatformEvent 5 none c2wev c2wdb
        = { c2wdb with
              platformEvents := c2wdb.platformEvents ++
                [platformLogRow "UserJoinedPlatformEvent" c2wev.platform_id none 5]
            , memberships := c2wdb.memberships ++
                [{ platform_id := c2wev.platform_id
                 , profile_id := c2wev.profile_id
                 , joined_at := c2wev.timestamp }]
            , profileEvents := c2wdb.profileEvents ++
                [platformJoinedProfileRow 5 none c2wev.profile_id
                   c2wev.platform_id c2wev.timestamp] } :=
  ⟨by decide, by decide, by decide,
   (c2_user_joined_gated 5 none c2wev c2wdb).2.2.2.2 (by decide) (by decide)
     (by decide)⟩

/-- Concrete join event for the C4 witness. -/
def c4wev : UserJoinedPlatformEvent :=
  { profile_id := "u1", platform_id := "p1", user := "u1", timestamp := 1 }

/-- Witness for C4: a join delivered into the empty state writes no
membership. -/
theorem c4_order_tolerance_witness :
    platformIsApproved DB.empty c4wev.platform_id = false
    ∧ (processUserJoinedPlatformEvent 1 none c4wev DB.empty).memberships
        = DB.empty.memberships :=
  ⟨by decide, c4_order_tolerance.1 1 none c4wev DB.empty (by decide)⟩

/-- Concrete user-level block event for the C6 witness. -/
def c6wev : UserBlockEvent := { blocker := "a", blocked := "b" }

/-- Witness for C6: with the log insert failing, the relational row is
still written. -/
theorem c6_per_event_atomicity_witness :
    c6wev.blocker ≠ "" ∧ c6wev.blocked ≠ ""
    ∧ processProfileBlockEventF true 7 c6wev DB.empty
        = { DB.empty with profilesBlocked := DB.empty.profilesBlocked ++
            [{ blocker_profile_id := c6wev.blocker
             , blocked_profile_id := c6wev.blocked
             , created_at := 7, is_blocked := true, unblocked_at := none }] } :=
  ⟨by decide, by decide,
   (c6_per_event_atomicity.2 7 c6wev DB.empty (by decide) (by decide) rfl).1⟩

/-- Concrete platform-level block event for the C7 witness. -/
def c7wev : PlatformBlockedProfileEvent :=
  { platform_id := "p1", profile_id := "u1", blocked_by := "m1" }

/-- Witness for C7: the blocking-events listener records the platform
block as a tagged profile event-log row. -/
theorem c7_platform_block_recording_witness :
    c7wev.platform_id ≠ "" ∧ c7wev.profile_id ≠ "" ∧ c7wev.blocked_by ≠ ""
    ∧ processPlatformBlockLogEvent 3 c7wev DB.empty
        = { DB.empty with profileEvents :=
              DB.empty.profileEvents ++ [platformBlockProfileRow 3 c7wev] } :=
  ⟨by decide, by decide, by decide,
   (c7_platform_block_recording.1 3 c7wev DB.empty (by decide) (by decide)
     (by decide)).1⟩

/-- Payload that deserializes directly as a FollowEvent. -/
def c8wj : Json := .obj [("follower", .str "a"), ("following", .str "b")]

/-- The direct deserialization of `c8wj`. -/
def c8wf : FollowEvent := { follower := "a", following := "b", timestamp := none }

/-- Witness for C8: a directly-deserializable payload short-circuits the
chain. -/
theorem c8_decoder_chain_witness :
    deserFollow c8wj = some c8wf ∧ parseEventFollow c8wj = some c8wf :=
  ⟨rfl, c8_decoder_chain.1 c8wj c8wf rfl⟩

/-- Concrete follow event for the C9 witness. -/
def c9wev : FollowEvent := { follower := "a", following := "b", timestamp := none }

/-- Witness for C9: with both endpoints missing, only the log row is
written. -/
theorem c9_follow_log_first_witness :
    (profileExists DB.empty c9wev.follower = false
      ∨ profileExists DB.empty c9wev.following = false)
    ∧ processFollowEvent 2 none c9wev DB.empty
        = { DB.empty with socialGraphEvents :=
              DB.empty.socialGraphEvents ++ [followLogRow 2 none c9wev] } :=
  ⟨Or.inl (by decide),
   (c9_follow_log_first 2 none c9wev DB.empty).2.1 (Or.inl (by decide))⟩

/-- Concrete user-level unblock event for the C10 witness. -/
def c10wev : UserUnblockEvent := { blocker := "a", unblocked := "b" }

/-- Witness for C10: the user-level unblock keeps the row count. -/
theorem c10_unblock_variants_witness :
    c10wev.blocker ≠ "" ∧ c10wev.unblocked ≠ ""
    ∧ (processProfileUnblockEvent 4 c10wev DB.empty).profilesBlocked.length
        = DB.empty.profilesBlocked.length :=
  ⟨by decide, by decide,
   (c10_unblock_variants.1 4 c10wev DB.empty (by decide) (by decide)).2.1⟩

end MysIndexer
